import Mathlib

/-!
# o3webapp: data reshaping and chart-series construction

A shallow embedding of `src/utils/optionsFormatter.js` (the normaliser of the
`tco3_zm` year series, the box-plot statistics of the `tco3_return` plot and
the series builder `generateSeries`), together with theorems about it.

JavaScript values are modelled by `JSValue`; a thrown exception is modelled by
`Except.error`; arrays are lists; objects are association lists in
`Object.entries` order.
-/

set_option autoImplicit false

namespace O3webapp

/-! ## JavaScript values and strings -/

/-- Exceptions a JavaScript expression of the module can throw. -/
inductive JSError where
  | typeError
  deriving DecidableEq, Repr

/-- The JavaScript values that occur in the module. Numbers are integers (years,
return years, stroke codes). `builtin name` stands for a member inherited from
`Object.prototype` (for instance the function `constructor`). -/
inductive JSValue where
  | undefined
  | null
  | bool (b : Bool)
  | num (n : Int)
  | str (s : String)
  | builtin (name : String)
  deriving DecidableEq, Repr

/-- The UTF-16 code units of one character. -/
def utf16Units (c : Char) : List Nat :=
  if c.toNat < 65536 then [c.toNat]
  else [55296 + (c.toNat - 65536) / 1024, 56320 + (c.toNat - 65536) % 1024]

/-- A string as its sequence of UTF-16 code units, the view under which
JavaScript compares strings. -/
def codeUnits (s : String) : List Nat := s.data.flatMap utf16Units

/-- Lexicographic comparison `a <= b` of two code-unit sequences: the order used
by `Array.prototype.sort` without a comparator. -/
def codeUnitsLe : List Nat → List Nat → Bool
  | [], _ => true
  | _ :: _, [] => false
  | a :: as, b :: bs =>
    if a < b then true else if b < a then false else codeUnitsLe as bs

/-- Decimal digits of `n`, least significant first (`fuel` bounds the recursion;
`n + 1` is always enough). -/
def digitsRev : Nat → Nat → List Nat
  | 0, _ => []
  | fuel + 1, n => if n < 10 then [n] else (n % 10) :: digitsRev fuel (n / 10)

/-- `Number.prototype.toString` on an integer, as code units: an optional minus
sign (45) and the decimal digits (48 + d). This is what JavaScript writes for
the integers it represents exactly (absolute value below 2^53), return years
among them; from 10^21 on JavaScript writes an exponent form instead. -/
def numberToString (n : Int) : List Nat :=
  let ds := ((digitsRev (n.natAbs + 1) n.natAbs).reverse).map (fun d => 48 + d)
  if n < 0 then 45 :: ds else ds

/-- The lower-case form of one character, as far as it can be an ASCII
character: `A`-`Z` go to `a`-`z` and U+212A KELVIN SIGN goes to `k`. The
lower-case form of every other non-ASCII character is non-ASCII; such a
character is left as it is. -/
def lowerChar (c : Char) : Char :=
  if c = Char.ofNat 8490 then Char.ofNat 107 else c.toLower

/-- `String.prototype.toLowerCase`, character by character with `lowerChar`. On
ASCII strings this is the JavaScript result; on any string it is equal to a
given ASCII key exactly when the JavaScript result is, which is all the lookups
below use. -/
def toLowerCase (s : String) : String := String.mk (s.data.map lowerChar)

/-! ## The normaliser -/

/-- Modelled from the spec: `IMPLICIT_YEAR_LIST` of `src/utils/constants.js`,
which is not among the sources. The spec describes it as the fixed, contiguous
set of years `[START_YEAR, END_YEAR]`; both constants are parameters here. -/
def IMPLICIT_YEAR_LIST (START_YEAR END_YEAR : Int) : List Int :=
  (List.range (END_YEAR - START_YEAR + 1).toNat).map (fun (k : Nat) => START_YEAR + (k : Int))

/-- The `for (let year of IMPLICIT_YEAR_LIST)` loop of `normalizeArray`: the
list argument holds the years still to visit, the number is
`currentValueIndex`, and the returned list is what the loop pushes to `result`.
`xValues[i] === year` is false when `i` is past the end (`undefined`), and
`yValues[i]` is `undefined` past the end of `yValues`. -/
def normalizeLoop (xValues : List Int) (yValues : List JSValue) :
    List Int → Nat → List JSValue
  | [], _ => []
  | year :: rest, currentValueIndex =>
    if xValues[currentValueIndex]? = some year then
      yValues.getD currentValueIndex JSValue.undefined ::
        normalizeLoop xValues yValues rest (currentValueIndex + 1)
    else
      JSValue.null :: normalizeLoop xValues yValues rest currentValueIndex

/-- The function `normalizeArray(xValues, yValues)`. -/
def normalizeArray (START_YEAR END_YEAR : Int) (xValues : List Int)
    (yValues : List JSValue) : List JSValue :=
  normalizeLoop xValues yValues (IMPLICIT_YEAR_LIST START_YEAR END_YEAR) 0

/-- The entries `(year, value)` whose year lies in `[START_YEAR, END_YEAR]`,
as a pair of parallel lists (the reading of "only those entries whose year lies
in the range" used to state the claim on out-of-range years). -/
def inRangeEntries (START_YEAR END_YEAR : Int) (xValues : List Int)
    (yValues : List JSValue) : List Int × List JSValue :=
  ((xValues.zip yValues).filter
    (fun p => decide (START_YEAR ≤ p.1) && decide (p.1 ≤ END_YEAR))).unzip

/-- The years `y0, y0 + 1, ...`, `n` of them. -/
def yearsFrom (y0 : Int) : Nat → List Int
  | 0 => []
  | n + 1 => y0 :: yearsFrom (y0 + 1) n

deriving instance DecidableEq for Except

/-! ## Objects, sets and sorting -/

/-- The outcome of reading a property `obj[key]` of a plain object: an own
property, a member inherited from `Object.prototype`, or nothing
(`undefined`). -/
inductive Lookup (α : Type) where
  | own (v : α)
  | inherited
  | absent
  deriving DecidableEq, Repr

/-- The property names every plain object inherits from `Object.prototype`. -/
def objectPrototypeKeys : List String :=
  ["constructor", "__proto__", "hasOwnProperty", "isPrototypeOf", "propertyIsEnumerable",
   "toLocaleString", "toString", "valueOf", "__defineGetter__", "__defineSetter__",
   "__lookupGetter__", "__lookupSetter__"]

/-- The own property `key` of an object given by its entries. -/
def assocGet {α : Type} : List (String × α) → String → Option α
  | [], _ => none
  | (k, v) :: rest, key => if k = key then some v else assocGet rest key

/-- The read `obj[key]`. -/
def objGet {α : Type} (entries : List (String × α)) (key : String) : Lookup α :=
  match assocGet entries key with
  | some v => Lookup.own v
  | none => if key ∈ objectPrototypeKeys then Lookup.inherited else Lookup.absent

/-- The assignment `obj[key] = v` on the own entries of an object: an existing
own key keeps its place and takes the value, a new key goes last. The key
`__proto__`, when it is not an own key, is the inherited accessor: the
assignment goes to its setter and creates no own entry. -/
def objSet {α : Type} : List (String × α) → String → α → List (String × α)
  | [], key, v => if key = "__proto__" then [] else [(key, v)]
  | (k, w) :: rest, key, v =>
    if k = key then (k, v) :: rest else (k, w) :: objSet rest key v

/-- The call `set.add(x)` on a `Set`, kept as the list of its members in
insertion order. -/
def setAdd (s : List String) (x : String) : List String :=
  if x ∈ s then s else s ++ [x]

/-- `Array.prototype.sort()` without a comparator on an array of strings:
a stable sort by code units. -/
def jsSortStrings (l : List String) : List String :=
  l.insertionSort (fun a b => codeUnitsLe (codeUnits a) (codeUnits b) = true)

/-- `Array.prototype.sort()` without a comparator on an array of numbers: a
stable sort that compares the elements as strings, by code units. -/
def jsSortNumbers (l : List Int) : List Int :=
  l.insertionSort (fun a b => codeUnitsLe (numberToString a) (numberToString b) = true)

/-! ## Regions -/

def ANTARCTIC : String := "Antarctic(Oct)"
def SH_MID : String := "SH mid-lat"
def NH_MID : String := "NH mid-lat"
def TROPICS : String := "Tropics"
def ARCTIC : String := "Arctic(Mar)"
def NEAR_GLOBAL : String := "Near global"
def GLOBAL : String := "Global"
def USER_REGION : String := "User region"

/-- The array `ALL` after the module-level `ALL.sort()`. -/
def ALL : List String :=
  jsSortStrings [ANTARCTIC, SH_MID, NH_MID, TROPICS, ARCTIC, NEAR_GLOBAL, GLOBAL, USER_REGION]

/-! ## Styling tables -/

/-- The table `colours` of `colourNameToHex`, entry by entry. -/
def colours : List (String × String) :=
  [("aliceblue", "#f0f8ff"), ("antiquewhite", "#faebd7"), ("aqua", "#00ffff"),
   ("aquamarine", "#7fffd4"), ("azure", "#f0ffff"), ("beige", "#f5f5dc"), ("bisque", "#ffe4c4"),
   ("black", "#000000"), ("blanchedalmond", "#ffebcd"), ("blue", "#0000ff"),
   ("blueviolet", "#8a2be2"), ("brown", "#a52a2a"), ("burlywood", "#deb887"),
   ("cadetblue", "#5f9ea0"), ("chartreuse", "#7fff00"), ("chocolate", "#d2691e"),
   ("coral", "#ff7f50"), ("cornflowerblue", "#6495ed"), ("cornsilk", "#fff8dc"),
   ("crimson", "#dc143c"), ("cyan", "#00ffff"), ("darkblue", "#00008b"), ("darkcyan", "#008b8b"),
   ("darkgoldenrod", "#b8860b"), ("darkgray", "#a9a9a9"), ("darkgreen", "#006400"),
   ("darkkhaki", "#bdb76b"), ("darkmagenta", "#8b008b"), ("darkolivegreen", "#556b2f"),
   ("darkorange", "#ff8c00"), ("darkorchid", "#9932cc"), ("darkred", "#8b0000"),
   ("darksalmon", "#e9967a"), ("darkseagreen", "#8fbc8f"), ("darkslateblue", "#483d8b"),
   ("darkslategray", "#2f4f4f"), ("darkturquoise", "#00ced1"), ("darkviolet", "#9400d3"),
   ("deeppink", "#ff1493"), ("deepskyblue", "#00bfff"), ("dimgray", "#696969"),
   ("dodgerblue", "#1e90ff"), ("firebrick", "#b22222"), ("floralwhite", "#fffaf0"),
   ("forestgreen", "#228b22"), ("fuchsia", "#ff00ff"), ("gainsboro", "#dcdcdc"),
   ("ghostwhite", "#f8f8ff"), ("gold", "#ffd700"), ("goldenrod", "#daa520"), ("gray", "#808080"),
   ("green", "#008000"), ("greenyellow", "#adff2f"), ("honeydew", "#f0fff0"),
   ("hotpink", "#ff69b4"), ("indianred ", "#cd5c5c"), ("indigo", "#4b0082"), ("ivory", "#fffff0"),
   ("khaki", "#f0e68c"), ("lavender", "#e6e6fa"), ("lavenderblush", "#fff0f5"),
   ("lawngreen", "#7cfc00"), ("lemonchiffon", "#fffacd"), ("lightblue", "#add8e6"),
   ("lightcoral", "#f08080"), ("lightcyan", "#e0ffff"), ("lightgoldenrodyellow", "#fafad2"),
   ("lightgrey", "#d3d3d3"), ("lightgreen", "#90ee90"), ("lightpink", "#ffb6c1"),
   ("lightsalmon", "#ffa07a"), ("lightseagreen", "#20b2aa"), ("lightskyblue", "#87cefa"),
   ("lightslategray", "#778899"), ("lightsteelblue", "#b0c4de"), ("lightyellow", "#ffffe0"),
   ("lime", "#00ff00"), ("limegreen", "#32cd32"), ("linen", "#faf0e6"), ("magenta", "#ff00ff"),
   ("maroon", "#800000"), ("mediumaquamarine", "#66cdaa"), ("mediumblue", "#0000cd"),
   ("mediumorchid", "#ba55d3"), ("mediumpurple", "#9370d8"), ("mediumseagreen", "#3cb371"),
   ("mediumslateblue", "#7b68ee"), ("mediumspringgreen", "#00fa9a"),
   ("mediumturquoise", "#48d1cc"), ("mediumvioletred", "#c71585"), ("midnightblue", "#191970"),
   ("mintcream", "#f5fffa"), ("mistyrose", "#ffe4e1"), ("moccasin", "#ffe4b5"),
   ("navajowhite", "#ffdead"), ("navy", "#000080"), ("oldlace", "#fdf5e6"), ("olive", "#808000"),
   ("olivedrab", "#6b8e23"), ("orange", "#ffa500"), ("orangered", "#ff4500"),
   ("orchid", "#da70d6"), ("palegoldenrod", "#eee8aa"), ("palegreen", "#98fb98"),
   ("paleturquoise", "#afeeee"), ("palevioletred", "#d87093"), ("papayawhip", "#ffefd5"),
   ("peachpuff", "#ffdab9"), ("peru", "#cd853f"), ("pink", "#ffc0cb"), ("plum", "#dda0dd"),
   ("powderblue", "#b0e0e6"), ("purple", "#800080"), ("rebeccapurple", "#663399"),
   ("red", "#ff0000"), ("rosybrown", "#bc8f8f"), ("royalblue", "#4169e1"),
   ("saddlebrown", "#8b4513"), ("salmon", "#fa8072"), ("sandybrown", "#f4a460"),
   ("seagreen", "#2e8b57"), ("seashell", "#fff5ee"), ("sienna", "#a0522d"), ("silver", "#c0c0c0"),
   ("skyblue", "#87ceeb"), ("slateblue", "#6a5acd"), ("slategray", "#708090"),
   ("snow", "#fffafa"), ("springgreen", "#00ff7f"), ("steelblue", "#4682b4"), ("tan", "#d2b48c"),
   ("teal", "#008080"), ("thistle", "#d8bfd8"), ("tomato", "#ff6347"), ("turquoise", "#40e0d0"),
   ("violet", "#ee82ee"), ("wheat", "#f5deb3"), ("white", "#ffffff"), ("whitesmoke", "#f5f5f5"),
   ("yellow", "#ffff00"), ("yellowgreen", "#9acd32")]

/-- The function `colourNameToHex(colour)`: the hex code of a known name, the
inherited member for a name such as `constructor`, and `false` otherwise. -/
def colourNameToHex (colour : String) : JSValue :=
  match objGet colours (toLowerCase colour) with
  | Lookup.own hex => JSValue.str hex
  | Lookup.inherited => JSValue.builtin (toLowerCase colour)
  | Lookup.absent => JSValue.bool false

/-- The table `styles` of `convertToStrokeStyle`. -/
def styles : List (String × Int) :=
  [("solid", 0), ("dotted", 1), ("dashed", 3)]

/-- The function `convertToStrokeStyle(apiStyle)`. -/
def convertToStrokeStyle (apiStyle : String) : JSValue :=
  match objGet styles (toLowerCase apiStyle) with
  | Lookup.own code => JSValue.num code
  | Lookup.inherited => JSValue.builtin (toLowerCase apiStyle)
  | Lookup.absent => JSValue.bool false

/-! ## Model tables and the visibility structure -/

/-- The `plotStyle` of a model: `{color, linestyle}`. -/
structure PlotStyle where
  color : String
  linestyle : String
  deriving DecidableEq, Repr

/-- The `data` of a model as `preTransformApiData` stores it: the normalised
year series of the `tco3_zm` plot, or the `{x, y}` pairs (region label, return
year) of the `tco3_return` plot. -/
inductive ModelData where
  | yearSeries (values : List JSValue)
  | regionPairs (pairs : List (String × Int))
  deriving DecidableEq, Repr

/-- One value of the model table: `{plotStyle, data}`. -/
structure ModelEntry where
  plotStyle : PlotStyle
  data : ModelData
  deriving DecidableEq, Repr

/-- The model table `data`: an object keyed by model name, given by its entries
in `Object.entries` order, which is the order of insertion for names that are
not array indices. The keys of an object are distinct. -/
structure ModelTable where
  entries : List (String × ModelEntry)
  nodup : (entries.map Prod.fst).Nodup

/-- No model of the table is named `__proto__`. The tables that
`preTransformApiData` builds are of this kind: its assignments
`lookUpTable[datum.model] = ...` create no own key of that name. -/
def ModelTable.plainNames (data : ModelTable) : Prop :=
  "__proto__" ∉ data.entries.map Prod.fst

instance (data : ModelTable) : Decidable data.plainNames :=
  inferInstanceAs (Decidable ("__proto__" ∉ data.entries.map Prod.fst))

/-- A model group of the models slice: its own visibility, the list of its
models, and `models[name].isVisible` for each of them. -/
structure ModelGroup where
  isVisible : Bool
  modelList : List String
  models : List (String × Bool)
  deriving DecidableEq, Repr

/-- The models slice: `modelGroupList` (group ids) and `modelGroups` (the groups
by id). -/
structure ModelsSlice where
  modelGroupList : List Nat
  modelGroups : List (Nat × ModelGroup)
  deriving DecidableEq, Repr

/-- The inner loop of `getIncludedModels`, over `modelGroups[id].modelList`.
`modelGroups[id].models[model]` is `undefined` for an unknown model, and reading
`.isVisible` of it throws; an inherited member has no `isVisible`, so the model
is skipped. -/
def includeGroupModels (group : ModelGroup) :
    List String → List String → Except JSError (List String)
  | [], includedModels => Except.ok includedModels
  | model :: rest, includedModels =>
    match objGet group.models model with
    | Lookup.own isVisible =>
      if !isVisible then includeGroupModels group rest includedModels
      else includeGroupModels group rest (setAdd includedModels model)
    | Lookup.inherited => includeGroupModels group rest includedModels
    | Lookup.absent => Except.error JSError.typeError

/-- The outer loop of `getIncludedModels`, over `modelGroupList`. Reading
`.isVisible` of a missing group throws. -/
def getIncludedModelsLoop (modelGroups : List (Nat × ModelGroup)) :
    List Nat → List String → Except JSError (List String)
  | [], includedModels => Except.ok includedModels
  | id :: rest, includedModels =>
    match modelGroups.lookup id with
    | none => Except.error JSError.typeError
    | some group =>
      if !group.isVisible then getIncludedModelsLoop modelGroups rest includedModels
      else
        match includeGroupModels group group.modelList includedModels with
        | Except.error e => Except.error e
        | Except.ok includedModels' =>
          getIncludedModelsLoop modelGroups rest includedModels'

/-- The function `getIncludedModels(modelsSlice)`; the returned `Set` is the
list of its members. -/
def getIncludedModels (modelsSlice : ModelsSlice) : Except JSError (List String) :=
  getIncludedModelsLoop modelsSlice.modelGroups modelsSlice.modelGroupList []

/-! ## Chart series -/

/-- One element of the `series` array: the line series of the `tco3_zm` plot
(`{name, data}`), the box-plot entry (`{name, type: 'boxPlot', data}`) whose
items are `{x: region, y: boxPlotValues[region]}` (`none` is `undefined`), or a
scatter series (`{name, data, type: "scatter"}`) whose points are `{x, y}`. -/
inductive SeriesItem where
  | line (name : String) (data : ModelData)
  | boxPlot (name : String) (data : List (String × Option (List JSValue)))
  | scatter (name : String) (data : List (String × JSValue))
  deriving DecidableEq, Repr

/-- The `name` of a series. -/
def SeriesItem.name : SeriesItem → String
  | SeriesItem.line name _ => name
  | SeriesItem.boxPlot name _ => name
  | SeriesItem.scatter name _ => name

/-- The three styling arrays. -/
structure Styling where
  colors : List JSValue
  dashArray : List JSValue
  width : List JSValue
  deriving DecidableEq, Repr

/-- The object `{series, styling: {colors, dashArray, width}}` returned by
`generateSeries`. -/
structure SeriesOutput where
  series : List SeriesItem
  styling : Styling
  deriving DecidableEq, Repr

/-- The helpers `q25`, `median` and `q75` imported from
`src/services/math/math`, which is not among the sources: each is a function of
the (sorted) bucket. -/
structure Quantiles where
  q25 : List Int → JSValue
  median : List Int → JSValue
  q75 : List Int → JSValue

/-- The elements `xypair` that `for (let xypair of modelData.data)` hands to the
bucket code. On a year series (the data of the other plot) `xypair.x` is not a
region: reading `.x` of `null` or `undefined` throws and any other element has
`x === undefined`, a key no bucket has, so the first element throws. -/
def regionPairsOf : ModelData → Except JSError (List (String × Int))
  | ModelData.regionPairs pairs => Except.ok pairs
  | ModelData.yearSeries [] => Except.ok []
  | ModelData.yearSeries (_ :: _) => Except.error JSError.typeError

/-- The statements `staticData[xypair.x].push(xypair.y)` for the pairs of one
model. When `staticData[xypair.x]` is `undefined` or an inherited member, it has
no `push` and the call throws. -/
def pushPairs : List (String × List Int) → List (String × Int) →
    Except JSError (List (String × List Int))
  | staticData, [] => Except.ok staticData
  | staticData, (x, y) :: rest =>
    match objGet staticData x with
    | Lookup.own bucket => pushPairs (objSet staticData x (bucket ++ [y])) rest
    | Lookup.inherited => Except.error JSError.typeError
    | Lookup.absent => Except.error JSError.typeError

/-- The loop `for (const [model, modelData] of Object.entries(data))` of
`calculateBoxPlotValues`. -/
def collectBuckets : List (String × List Int) → List (String × ModelEntry) →
    Except JSError (List (String × List Int))
  | staticData, [] => Except.ok staticData
  | staticData, (_, modelData) :: rest =>
    match regionPairsOf modelData.data with
    | Except.error e => Except.error e
    | Except.ok pairs =>
      match pushPairs staticData pairs with
      | Except.error e => Except.error e
      | Except.ok staticData' => collectBuckets staticData' rest

/-- The element `arr[i]` of an array of numbers. -/
def numAt (arr : List Int) (i : Option Nat) : JSValue :=
  match i with
  | none => JSValue.undefined
  | some i =>
    match arr[i]? with
    | some n => JSValue.num n
    | none => JSValue.undefined

/-- The five values pushed to `boxPlotValues[region]` from the sorted bucket:
`arr[0]`, `q25(arr)`, `median(arr)`, `q75(arr)`, `arr[arr.length - 1]`. -/
def fiveValues (stats : Quantiles) (arr : List Int) : List JSValue :=
  [numAt arr (some 0), stats.q25 arr, stats.median arr, stats.q75 arr,
   numAt arr (if arr.length = 0 then none else some (arr.length - 1))]

/-- The second `for (let region of ALL)` loop of `calculateBoxPlotValues`. The
buckets of the regions of `ALL` exist, so the read cannot fail there. -/
def summarizeBuckets (stats : Quantiles) (staticData : List (String × List Int)) :
    List String → List (String × List JSValue) → Except JSError (List (String × List JSValue))
  | [], boxPlotValues => Except.ok boxPlotValues
  | region :: rest, boxPlotValues =>
    match objGet staticData region with
    | Lookup.own bucket =>
      summarizeBuckets stats staticData rest
        (objSet boxPlotValues region (fiveValues stats (jsSortNumbers bucket)))
    | Lookup.inherited => Except.error JSError.typeError
    | Lookup.absent => Except.error JSError.typeError

/-- The function `calculateBoxPlotValues(data)`. -/
def calculateBoxPlotValues (stats : Quantiles) (data : List (String × ModelEntry)) :
    Except JSError (List (String × List JSValue)) :=
  let staticData := ALL.foldl (fun o region => objSet o region []) []
  match collectBuckets staticData data with
  | Except.error e => Except.error e
  | Except.ok staticData' => summarizeBuckets stats staticData' ALL []

/-- The loop of `generateTco3_ZmSeries`, returning the arrays `series`,
`colors`, `dashArray`, `width` after the pushes. -/
def generateTco3_ZmSeries : List (String × ModelEntry) → SeriesOutput → SeriesOutput
  | [], out => out
  | (model, modelData) :: rest, out =>
    generateTco3_ZmSeries rest
      { series := out.series ++ [SeriesItem.line model modelData.data]
        styling :=
          { colors := out.styling.colors ++ [colourNameToHex modelData.plotStyle.color]
            dashArray :=
              out.styling.dashArray ++ [convertToStrokeStyle modelData.plotStyle.linestyle]
            width := out.styling.width ++ [JSValue.num 2] } }

/-- The array-as-object `transformed` after `transformed[xypair.x] = xypair.y`
for the pairs of one model. The loop runs only after `calculateBoxPlotValues`
has returned, so every label is a region of `ALL`, an ordinary property name. -/
def transformPairs : List (String × Int) → List (String × Int) → List (String × Int)
  | transformed, [] => transformed
  | transformed, (x, y) :: rest => transformPairs (objSet transformed x y) rest

/-- The expression `transformed[region] || null`: the number `0` is falsy. -/
def valueOrNull (transformed : List (String × Int)) (region : String) : JSValue :=
  match objGet transformed region with
  | Lookup.own y => if y = 0 then JSValue.null else JSValue.num y
  | Lookup.inherited => JSValue.builtin region
  | Lookup.absent => JSValue.null

/-- The loop over the models of `generateTco3_ReturnSeries`, which pushes one
scatter series and one colour per model. -/
def scatterSeries : List (String × ModelEntry) → SeriesOutput → Except JSError SeriesOutput
  | [], out => Except.ok out
  | (model, modelData) :: rest, out =>
    match regionPairsOf modelData.data with
    | Except.error e => Except.error e
    | Except.ok pairs =>
      let transformed := transformPairs [] pairs
      let sortedData := ALL.map (fun region => (region, valueOrNull transformed region))
      scatterSeries rest
        { series := out.series ++ [SeriesItem.scatter model sortedData]
          styling :=
            { colors := out.styling.colors ++ [colourNameToHex modelData.plotStyle.color]
              dashArray := out.styling.dashArray
              width := out.styling.width } }

/-- The function `generateTco3_ReturnSeries`. -/
def generateTco3_ReturnSeries (stats : Quantiles) (data : List (String × ModelEntry))
    (out : SeriesOutput) : Except JSError SeriesOutput :=
  match calculateBoxPlotValues stats data with
  | Except.error e => Except.error e
  | Except.ok boxPlotValues =>
    scatterSeries data
      { series := out.series ++
          [SeriesItem.boxPlot "box"
            (ALL.map (fun region => (region, assocGet boxPlotValues region)))]
        styling := out.styling }

/-- The loop of `generateSeries` that builds `trimmedData`. -/
def trimData (includedModels : List String) :
    List (String × ModelEntry) → List (String × ModelEntry) → List (String × ModelEntry)
  | [], trimmedData => trimmedData
  | (model, modelData) :: rest, trimmedData =>
    if model ∈ includedModels then
      trimData includedModels rest (objSet trimmedData model modelData)
    else trimData includedModels rest trimmedData

/-- The function `generateSeries({plotId, data, modelsSlice})`. -/
def generateSeries (stats : Quantiles) (plotId : String) (data : ModelTable)
    (modelsSlice : ModelsSlice) : Except JSError SeriesOutput :=
  let empty : SeriesOutput :=
    { series := [], styling := { colors := [], dashArray := [], width := [] } }
  match getIncludedModels modelsSlice with
  | Except.error e => Except.error e
  | Except.ok includedModels =>
    let trimmedData := trimData includedModels data.entries []
    if plotId = "tco3_zm" then Except.ok (generateTco3_ZmSeries trimmedData empty)
    else if plotId = "tco3_return" then generateTco3_ReturnSeries stats trimmedData empty
    else Except.ok empty

/-- The models of the table that are in the included set, in table order. -/
def includedEntries (includedModels : List String) (data : ModelTable) :
    List (String × ModelEntry) :=
  data.entries.filter (fun p => decide (p.1 ∈ includedModels))

/-! ## Vocabulary of the claims on the return plot -/

/-- The `{x, y}` pairs the loops see in the data of one model (none in an empty
array). -/
def ModelData.pairs : ModelData → List (String × Int)
  | ModelData.regionPairs pairs => pairs
  | ModelData.yearSeries _ => []

/-- The data of a model is region data whose labels all belong to `ALL`. -/
def hasKnownRegions : ModelData → Bool
  | ModelData.regionPairs pairs => pairs.all (fun q => decide (q.1 ∈ ALL))
  | ModelData.yearSeries values => values.isEmpty

/-- The values collected for a region across the given models, in the order of
collection. -/
def collected (data : List (String × ModelEntry)) (region : String) : List Int :=
  ((data.flatMap (fun p => p.2.data.pairs)).filter (fun q => decide (q.1 = region))).map
    Prod.snd

/-- The values of one model for a region, in the order of its pairs. -/
def valuesFor (pairs : List (String × Int)) (region : String) : List Int :=
  (pairs.filter (fun q => decide (q.1 = region))).map Prod.snd

/-! ## Sample inputs -/

/-- Sample quantile helpers: the elements of the sorted bucket at a quarter, a
half and three quarters of its last index. -/
def sampleQuantiles : Quantiles :=
  { q25 := fun arr => numAt arr (some ((arr.length - 1) / 4))
    median := fun arr => numAt arr (some ((arr.length - 1) / 2))
    q75 := fun arr => numAt arr (some (3 * (arr.length - 1) / 4)) }

/-- A sample `tco3_zm` table with three models. -/
def sampleZmTable : ModelTable :=
  { entries :=
      [("modelA", { plotStyle := { color := "Red", linestyle := "solid" }
                    data := ModelData.yearSeries [JSValue.null, JSValue.num 310] }),
       ("modelB", { plotStyle := { color := "blue", linestyle := "Dashed" }
                    data := ModelData.yearSeries [JSValue.num 295, JSValue.null] }),
       ("modelC", { plotStyle := { color := "green", linestyle := "dotted" }
                    data := ModelData.yearSeries [JSValue.num 300, JSValue.num 301] })]
    nodup := by decide }

/-- A sample `tco3_return` table with three models. -/
def sampleReturnTable : ModelTable :=
  { entries :=
      [("modelA", { plotStyle := { color := "Red", linestyle := "solid" }
                    data := ModelData.regionPairs [("Global", 2052), ("Tropics", 2060)] }),
       ("modelB", { plotStyle := { color := "blue", linestyle := "dashed" }
                    data := ModelData.regionPairs [("Global", 2049)] }),
       ("modelC", { plotStyle := { color := "green", linestyle := "dotted" }
                    data := ModelData.regionPairs [("Arctic(Mar)", 2040), ("Global", 2047)] })]
    nodup := by decide }

/-- A sample models slice: a visible group with `modelA` hidden and `modelC`,
`modelB` visible, and an invisible group. -/
def sampleSlice : ModelsSlice :=
  { modelGroupList := [0, 1]
    modelGroups :=
      [(0, { isVisible := true
             modelList := ["modelC", "modelA", "modelB"]
             models := [("modelC", true), ("modelA", false), ("modelB", true)] }),
       (1, { isVisible := false
             modelList := ["modelA"]
             models := [("modelA", true)] })] }

/-- The sample return table with the models and the pairs listed in another
order. -/
def sampleReturnTableReordered : ModelTable :=
  { entries :=
      [("modelC", { plotStyle := { color := "green", linestyle := "dotted" }
                    data := ModelData.regionPairs [("Global", 2047), ("Arctic(Mar)", 2040)] }),
       ("modelA", { plotStyle := { color := "Red", linestyle := "solid" }
                    data := ModelData.regionPairs [("Tropics", 2060), ("Global", 2052)] }),
       ("modelB", { plotStyle := { color := "blue", linestyle := "dashed" }
                    data := ModelData.regionPairs [("Global", 2049)] })]
    nodup := by decide }

/-- A line-plot table as `JSON.parse` can build it, with an own key
`__proto__` next to `modelB`. -/
def protoKeyTable : ModelTable :=
  { entries :=
      [("__proto__", { plotStyle := { color := "Red", linestyle := "solid" }
                       data := ModelData.yearSeries [JSValue.num 310] }),
       ("modelB", { plotStyle := { color := "blue", linestyle := "Dashed" }
                    data := ModelData.yearSeries [JSValue.num 295] })]
    nodup := by decide }

/-- A models slice in which `__proto__` and `modelB` are visible in a visible
group. -/
def protoKeySlice : ModelsSlice :=
  { modelGroupList := [0]
    modelGroups :=
      [(0, { isVisible := true
             modelList := ["__proto__", "modelB"]
             models := [("__proto__", true), ("modelB", true)] })] }

/-- A return table in which the included model `modelB` has the value 0 for the
region `Global`. -/
def zeroValueTable : ModelTable :=
  { entries :=
      [("modelB", { plotStyle := { color := "blue", linestyle := "dashed" }
                    data := ModelData.regionPairs [("Global", 0), ("Tropics", 2060)] })]
    nodup := by decide }

/-- A return table in which the values 9 and 10 are collected for `Global`. -/
def nineTenTable : ModelTable :=
  { entries :=
      [("modelB", { plotStyle := { color := "blue", linestyle := "dashed" }
                    data := ModelData.regionPairs [("Global", 9)] }),
       ("modelC", { plotStyle := { color := "green", linestyle := "dotted" }
                    data := ModelData.regionPairs [("Global", 10)] })]
    nodup := by decide }

/-- A return table with the claim's sample values for `Global`. -/
def eightValuesTable : ModelTable :=
  { entries :=
      [("modelB", { plotStyle := { color := "blue", linestyle := "dashed" }
                    data := ModelData.regionPairs
                      [("Global", 3), ("Global", 1), ("Global", 4), ("Global", 1),
                       ("Global", 5), ("Global", 9), ("Global", 2), ("Global", 6)] })]
    nodup := by decide }

/-- A return table in which the included model `modelB` has a pair for the
unknown region `Mars`. -/
def unknownRegionTable : ModelTable :=
  { entries :=
      [("modelB", { plotStyle := { color := "blue", linestyle := "dashed" }
                    data := ModelData.regionPairs [("Global", 2049), ("Mars", 2050)] })]
    nodup := by decide }

/-- The table `unknownRegionTable` with the pair of the unknown region
removed. -/
def unknownRegionRemovedTable : ModelTable :=
  { entries :=
      [("modelB", { plotStyle := { color := "blue", linestyle := "dashed" }
                    data := ModelData.regionPairs [("Global", 2049)] })]
    nodup := by decide }

/-! ## Truthiness and well-formed models slices -/

/-- The falsy values: `undefined`, `null`, `false`, the number 0 and the empty
string. -/
def isFalsy : JSValue → Bool
  | JSValue.undefined => true
  | JSValue.null => true
  | JSValue.bool b => !b
  | JSValue.num n => decide (n = 0)
  | JSValue.str s => decide (s = "")
  | JSValue.builtin _ => false

/-- A models slice is consistent when every id of `modelGroupList` has a group
in `modelGroups` and every model of a group's `modelList` has a record in the
group's `models`. -/
def ModelsSlice.consistent (modelsSlice : ModelsSlice) : Bool :=
  modelsSlice.modelGroupList.all (fun id =>
    match modelsSlice.modelGroups.lookup id with
    | none => false
    | some group => group.modelList.all (fun model => (assocGet group.models model).isSome))

/-! ## Chart options (`getOptions`) -/

/-- The parts of the module-level objects `defaultTCO3_zm` and
`default_TCO3_return` that `getOptions` writes to. `Object.assign({}, ...)`
copies the top level only, so the nested `xaxis` and `stroke` objects and the
array `colors` of `default_TCO3_return` are shared by every call. `none` is the
initial `null`. -/
structure DefaultOptions where
  zmCategories : List Int
  zmStrokeWidth : Option (List JSValue)
  zmStrokeDashArray : Option (List JSValue)
  returnColors : List JSValue
  deriving DecidableEq, Repr

/-- The module-level defaults as the module declares them:
`xaxis.categories = []`, `stroke.width = null`, `stroke.dashArray = null` and
`colors = [undefined]`. -/
def initialDefaults : DefaultOptions :=
  { zmCategories := []
    zmStrokeWidth := none
    zmStrokeDashArray := none
    returnColors := [JSValue.undefined] }

/-- The fields of the object returned by `getOptions` that depend on the call,
read when the call returns; all other fields are constants of the module. -/
inductive ChartOptions where
  | tco3_zm (categories : List Int) (colors : List JSValue)
      (strokeWidth : Option (List JSValue)) (strokeDashArray : Option (List JSValue))
      (titleText : String)
  | tco3_return (colors : List JSValue) (titleText : String)
  deriving DecidableEq, Repr

/-- The arguments `{plotId, styling, plotTitle}` of one call of `getOptions`. -/
structure GetOptionsCall where
  plotId : String
  styling : Styling
  plotTitle : String
  deriving DecidableEq, Repr

/-- The function `getOptions({plotId, styling, plotTitle})` as a step on the
module-level defaults: the returned options (`none` is `undefined`, for an
unknown plotId) and the defaults after the call. For `tco3_return` the call
pushes `styling.colors` to the shared array `colors`, and the returned `colors`
is that array. -/
def getOptions (START_YEAR END_YEAR : Int) (defaults : DefaultOptions)
    (call : GetOptionsCall) : Option ChartOptions × DefaultOptions :=
  if call.plotId = "tco3_zm" then
    let defaults' : DefaultOptions :=
      { zmCategories := IMPLICIT_YEAR_LIST START_YEAR END_YEAR
        zmStrokeWidth := some call.styling.width
        zmStrokeDashArray := some call.styling.dashArray
        returnColors := defaults.returnColors }
    (some (ChartOptions.tco3_zm defaults'.zmCategories call.styling.colors
      defaults'.zmStrokeWidth defaults'.zmStrokeDashArray call.plotTitle), defaults')
  else if call.plotId = "tco3_return" then
    let defaults' : DefaultOptions :=
      { zmCategories := defaults.zmCategories
        zmStrokeWidth := defaults.zmStrokeWidth
        zmStrokeDashArray := defaults.zmStrokeDashArray
        returnColors := defaults.returnColors ++ call.styling.colors }
    (some (ChartOptions.tco3_return defaults'.returnColors call.plotTitle), defaults')
  else (none, defaults)

/-- The module-level defaults after a history of calls of `getOptions`. -/
def afterCalls (START_YEAR END_YEAR : Int) (defaults : DefaultOptions)
    (history : List GetOptionsCall) : DefaultOptions :=
  history.foldl (fun d call => (getOptions START_YEAR END_YEAR d call).2) defaults

/-- A sample call for the return plot with one styling colour. -/
def sampleReturnCall : GetOptionsCall :=
  { plotId := "tco3_return"
    styling := { colors := [JSValue.str "#ff0000"], dashArray := [], width := [] }
    plotTitle := "Return/Recovery" }

/-! ## The error modal of `App` -/

/-- The state of `App` behind the error modal: `isErrorModalVisible`,
`errorMessage` (`none` is `null`) and the array `errorMessages`. -/
structure AppState where
  isErrorModalVisible : Bool
  errorMessage : Option String
  errorMessages : List String
  deriving DecidableEq, Repr

/-- The initial state set by `React.useState`. -/
def initialAppState : AppState :=
  { isErrorModalVisible := false, errorMessage := none, errorMessages := [] }

/-- The loop `for (let i = 0; i < errorMessages.length; i++)` of `reportError`:
whether some `errorMessages[i] === msg`, in which case the function returns. -/
def alreadyReported : List String → String → Bool
  | [], _ => false
  | m :: rest, msg => if m = msg then true else alreadyReported rest msg

/-- The function `reportError(msg)`. The array `errorMessages` is pushed to in
place, so every later call sees the message. -/
def reportError (s : AppState) (msg : String) : AppState :=
  if alreadyReported s.errorMessages msg then s
  else
    { isErrorModalVisible := true
      errorMessage := some msg
      errorMessages := s.errorMessages ++ [msg] }

/-- The function `closeErrorModal()`. -/
def closeErrorModal (s : AppState) : AppState :=
  { isErrorModalVisible := false
    errorMessage := s.errorMessage
    errorMessages := s.errorMessages }

/-- A call of one of the two handlers. -/
inductive AppAction where
  | reportError (msg : String)
  | closeErrorModal
  deriving DecidableEq, Repr

/-- One handler call. -/
def appStep (s : AppState) : AppAction → AppState
  | AppAction.reportError msg => reportError s msg
  | AppAction.closeErrorModal => closeErrorModal s

/-- The state reached from the initial state by a sequence of handler calls. -/
def appRun (actions : List AppAction) : AppState :=
  actions.foldl appStep initialAppState

/-! ## The latitude band selector -/

/-- The `value` of a latitude band: the string `'custom'` or a location
`{minLat, maxLat}`. -/
inductive BandValue where
  | custom
  | location (minLat maxLat : Int)
  deriving DecidableEq, Repr

/-- An element of `latitudeBands` (`src/utils/constants.js`, not among the
sources; the list is a parameter of the functions below). -/
structure LatitudeBand where
  description : String
  value : BandValue
  deriving DecidableEq, Repr

/-- The `selectedLocation` of the store. -/
structure PlotLocation where
  minLat : Int
  maxLat : Int
  deriving DecidableEq, Repr

/-- The arrow function handed to `forEach` in `findLatitudeBandByLocation`: it
returns `latBand.value` for the `'custom'` band and for a band with the
selected `minLat` and `maxLat`, and `undefined` (`none`) otherwise. -/
def latBandCallback (selectedLocation : PlotLocation) (latBand : LatitudeBand) :
    Option BandValue :=
  match latBand.value with
  | BandValue.custom => some latBand.value
  | BandValue.location minLat maxLat =>
    if minLat = selectedLocation.minLat ∧ maxLat = selectedLocation.maxLat then
      some latBand.value
    else none

/-- `Array.prototype.forEach`: the callback is called on every element and what
it returns is discarded. -/
def arrayForEach {α β : Type} (callback : α → β) : List α → Unit
  | [] => ()
  | a :: rest =>
    match callback a with
    | _ => arrayForEach callback rest

/-- The function `findLatitudeBandByLocation()`: its body is the `forEach`
statement and has no `return` of its own, so the call evaluates to
`undefined` (`none`). -/
def findLatitudeBandByLocation (latitudeBands : List LatitudeBand)
    (selectedLocation : PlotLocation) : Option BandValue :=
  match arrayForEach (latBandCallback selectedLocation) latitudeBands with
  | () => none

/-- Sample latitude bands, with the global band and the custom entry. -/
def sampleLatitudeBands : List LatitudeBand :=
  [{ description := "Tropics (20°S-20°N)", value := BandValue.location (-20) 20 },
   { description := "Global (90°S-90°N)", value := BandValue.location (-90) 90 },
   { description := "Custom", value := BandValue.custom }]

/-! ## Lemmas on the normaliser -/

theorem map_range_eq_yearsFrom (n : Nat) :
    ∀ s : Int, (List.range n).map (fun (k : Nat) => s + (k : Int)) = yearsFrom s n := by
  induction n with
  | zero => intro s; rfl
  | succ n ih =>
    intro s
    rw [List.range_succ_eq_map, yearsFrom, ← ih (s + 1)]
    simp only [List.map_cons, List.map_map]
    have h0 : s + ((0 : Nat) : Int) = s := by simp
    rw [h0]
    congr 1
    apply List.map_congr_left
    intro k _
    simp only [Function.comp, Nat.succ_eq_add_one]
    push_cast
    ring

theorem IMPLICIT_YEAR_LIST_eq (s e : Int) :
    IMPLICIT_YEAR_LIST s e = yearsFrom s (e - s + 1).toNat :=
  map_range_eq_yearsFrom _ s

theorem length_yearsFrom (n : Nat) : ∀ y0 : Int, (yearsFrom y0 n).length = n := by
  induction n with
  | zero => intro _; rfl
  | succ n ih => intro y0; simp [yearsFrom, ih]

theorem length_normalizeLoop (xs : List Int) (ys : List JSValue) (years : List Int) :
    ∀ idx, (normalizeLoop xs ys years idx).length = years.length := by
  induction years with
  | nil => intro _; rfl
  | cons y rest ih =>
    intro idx
    unfold normalizeLoop
    split <;> simp [ih]

theorem pairwise_get_lt {xs : List Int} (hs : xs.Pairwise (· < ·)) {i j : Nat} {a b : Int}
    (hij : i < j) (ha : xs[i]? = some a) (hb : xs[j]? = some b) : a < b := by
  obtain ⟨hi, rfl⟩ := List.getElem?_eq_some.mp ha
  obtain ⟨hj, rfl⟩ := List.getElem?_eq_some.mp hb
  exact (List.pairwise_iff_getElem.mp hs) i j hi hj hij

theorem get_of_lt_of_get {xs : List Int} {i j : Nat} {b : Int}
    (hij : i < j) (hb : xs[j]? = some b) : ∃ a, xs[i]? = some a := by
  obtain ⟨hj, _⟩ := List.getElem?_eq_some.mp hb
  exact ⟨xs[i], List.getElem?_eq_getElem (by omega)⟩

/-- The loop invariant of `normalizeArray`: when the input years are strictly
increasing and none of the years at or after the cursor is below the year being
visited, the output slot of every later year holds the value of the input entry
with that year, or `null` when there is none. -/
theorem normalizeLoop_get (xs : List Int) (ys : List JSValue)
    (hs : xs.Pairwise (· < ·)) :
    ∀ (n : Nat) (y0 : Int) (idx : Nat),
      (∀ k x, idx ≤ k → xs[k]? = some x → y0 ≤ x) →
      ∀ t, t < n →
        (∀ j, idx ≤ j → xs[j]? = some (y0 + (t : Int)) →
          (normalizeLoop xs ys (yearsFrom y0 n) idx)[t]? =
            some (ys.getD j JSValue.undefined)) ∧
        ((∀ j, idx ≤ j → xs[j]? ≠ some (y0 + (t : Int))) →
          (normalizeLoop xs ys (yearsFrom y0 n) idx)[t]? = some JSValue.null) := by
  intro n
  induction n with
  | zero => intro _ _ _ t ht; omega
  | succ n ih =>
    intro y0 idx hlow t ht
    unfold yearsFrom normalizeLoop
    by_cases h : xs[idx]? = some y0
    · rw [if_pos h]
      have hlow' : ∀ k x, idx + 1 ≤ k → xs[k]? = some x → y0 + 1 ≤ x := by
        intro k x hk hx
        have := pairwise_get_lt hs (show idx < k by omega) h hx
        omega
      cases t with
      | zero =>
        constructor
        · intro j hj hxj
          have hjidx : j = idx := by
            by_contra hne
            have := pairwise_get_lt hs (show idx < j by omega) h hxj
            simp at this
          subst hjidx
          simp
        · intro hnone
          exact absurd (by simpa using h) (hnone idx (le_refl _))
      | succ t =>
        have ht' : t < n := by omega
        obtain ⟨ih1, ih2⟩ := ih (y0 + 1) (idx + 1) hlow' t ht'
        have hcast : y0 + ((t + 1 : Nat) : Int) = y0 + 1 + (t : Int) := by
          push_cast; ring
        rw [hcast]
        constructor
        · intro j hj hxj
          have hjne : j ≠ idx := by
            rintro rfl
            rw [h] at hxj
            have := Option.some.inj hxj
            omega
          simpa using ih1 j (by omega) hxj
        · intro hnone
          simpa using ih2 (fun j hj => hnone j (by omega))
    · rw [if_neg h]
      have hlow' : ∀ k x, idx ≤ k → xs[k]? = some x → y0 + 1 ≤ x := by
        intro k x hk hx
        have h0 := hlow k x hk hx
        rcases Nat.eq_or_lt_of_le hk with hkeq | hklt
        · subst hkeq
          have : x ≠ y0 := fun hxy => h (hxy ▸ hx)
          omega
        · obtain ⟨a, ha⟩ := get_of_lt_of_get hklt hx
          have h1 := hlow idx a (le_refl _) ha
          have h2 := pairwise_get_lt hs hklt ha hx
          omega
      cases t with
      | zero =>
        constructor
        · intro j hj hxj
          have := hlow' j y0 hj (by simpa using hxj)
          omega
        · intro _
          simp
      | succ t =>
        have ht' : t < n := by omega
        obtain ⟨ih1, ih2⟩ := ih (y0 + 1) idx hlow' t ht'
        have hcast : y0 + ((t + 1 : Nat) : Int) = y0 + 1 + (t : Int) := by
          push_cast; ring
        rw [hcast]
        constructor
        · intro j hj hxj
          simpa using ih1 j hj hxj
        · intro hnone
          simpa using ih2 hnone

theorem normalizeLoop_nil (ys : List JSValue) (years : List Int) :
    ∀ idx, normalizeLoop [] ys years idx = List.replicate years.length JSValue.null := by
  induction years with
  | nil => intro _; rfl
  | cons y rest ih =>
    intro idx
    unfold normalizeLoop
    simp [ih, List.replicate_succ]

/-! ## Lemmas on objects and on the line series -/

theorem objSet_of_not_mem {α : Type} (l : List (String × α)) (k : String) (v : α)
    (hk : k ≠ "__proto__") (h : k ∉ l.map Prod.fst) : objSet l k v = l ++ [(k, v)] := by
  induction l with
  | nil => simp [objSet, hk]
  | cons p rest ih =>
    obtain ⟨k', w⟩ := p
    simp only [List.map_cons, List.mem_cons, not_or] at h
    unfold objSet
    rw [if_neg (fun hk => h.1 hk.symm), ih h.2]
    rfl

theorem assocGet_of_mem_nodup {α : Type} (l : List (String × α))
    (hnd : (l.map Prod.fst).Nodup) (k : String) (v : α) (hmem : (k, v) ∈ l) :
    assocGet l k = some v := by
  induction l with
  | nil => simp at hmem
  | cons p rest ih =>
    obtain ⟨k', w⟩ := p
    simp only [List.map_cons, List.nodup_cons] at hnd
    unfold assocGet
    rcases List.mem_cons.mp hmem with heq | hrest
    · cases heq
      simp
    · have hne : k' ≠ k := by
        rintro rfl
        exact hnd.1 (List.mem_map_of_mem Prod.fst hrest)
      rw [if_neg hne]
      exact ih hnd.2 hrest

theorem trimData_eq (inc : List String) :
    ∀ (l acc : List (String × ModelEntry)), (l.map Prod.fst).Nodup →
      "__proto__" ∉ l.map Prod.fst →
      (∀ k ∈ l.map Prod.fst, k ∉ acc.map Prod.fst) →
      trimData inc l acc = acc ++ l.filter (fun p => decide (p.1 ∈ inc)) := by
  intro l
  induction l with
  | nil => intro acc _ _ _; simp [trimData]
  | cons p rest ih =>
    intro acc hnd hproto hdis
    obtain ⟨k, e⟩ := p
    simp only [List.map_cons, List.nodup_cons] at hnd
    simp only [List.map_cons, List.mem_cons, not_or] at hproto
    have hk : k ∉ acc.map Prod.fst := hdis k (by simp)
    have hkp : k ≠ "__proto__" := fun h => hproto.1 h.symm
    unfold trimData
    by_cases hin : k ∈ inc
    · rw [if_pos hin, objSet_of_not_mem acc k e hkp hk, ih _ hnd.2 hproto.2]
      · simp [List.filter_cons, hin]
      · intro k' hk' hmem
        simp only [List.map_append, List.map_cons, List.map_nil, List.mem_append,
          List.mem_singleton] at hmem
        rcases hmem with hacc | rfl
        · exact hdis k' (by simp [hk']) hacc
        · exact hnd.1 hk'
    · rw [if_neg hin, ih _ hnd.2 hproto.2]
      · simp [List.filter_cons, hin]
      · intro k' hk'
        exact hdis k' (by simp [hk'])

theorem trimData_entries (inc : List String) (data : ModelTable)
    (hplain : data.plainNames) :
    trimData inc data.entries [] = includedEntries inc data := by
  rw [trimData_eq inc data.entries [] data.nodup hplain (by simp)]
  rfl

theorem mem_objSet {α : Type} (l : List (String × α)) (k : String) (v : α)
    (p : String × α) (hp : p ∈ objSet l k v) : p ∈ l ∨ p = (k, v) := by
  induction l with
  | nil =>
    unfold objSet at hp
    by_cases hk : k = "__proto__"
    · simp [hk] at hp
    · rw [if_neg hk] at hp
      exact Or.inr (List.mem_singleton.mp hp)
  | cons q rest ih =>
    obtain ⟨a, w⟩ := q
    unfold objSet at hp
    by_cases hak : a = k
    · rw [if_pos hak] at hp
      rcases List.mem_cons.mp hp with h | h
      · exact Or.inr (by rw [h, hak])
      · exact Or.inl (List.mem_cons_of_mem _ h)
    · rw [if_neg hak] at hp
      rcases List.mem_cons.mp hp with h | h
      · exact Or.inl (by rw [h]; exact List.mem_cons_self _ _)
      · rcases ih h with h' | h'
        · exact Or.inl (List.mem_cons_of_mem _ h')
        · exact Or.inr h'

theorem mem_trimData (inc : List String) :
    ∀ (l acc : List (String × ModelEntry)) (p : String × ModelEntry),
      p ∈ trimData inc l acc → p ∈ acc ∨ p ∈ l := by
  intro l
  induction l with
  | nil => intro acc p hp; exact Or.inl hp
  | cons q rest ih =>
    intro acc p hp
    obtain ⟨k, e⟩ := q
    unfold trimData at hp
    by_cases hin : k ∈ inc
    · rw [if_pos hin] at hp
      rcases ih _ p hp with h | h
      · rcases mem_objSet acc k e p h with h' | h'
        · exact Or.inl h'
        · exact Or.inr (by rw [h']; exact List.mem_cons_self _ _)
      · exact Or.inr (List.mem_cons_of_mem _ h)
    · rw [if_neg hin] at hp
      rcases ih _ p hp with h | h
      · exact Or.inl h
      · exact Or.inr (List.mem_cons_of_mem _ h)

theorem assocGet_of_mem_trimData (inc : List String) (data : ModelTable)
    (p : String × ModelEntry) (hp : p ∈ trimData inc data.entries []) :
    assocGet data.entries p.1 = some p.2 := by
  rcases mem_trimData inc data.entries [] p hp with h | h
  · simp at h
  · exact assocGet_of_mem_nodup _ data.nodup _ _ h

theorem generateTco3_ZmSeries_eq :
    ∀ (l : List (String × ModelEntry)) (out : SeriesOutput),
      generateTco3_ZmSeries l out =
        { series := out.series ++ l.map (fun p => SeriesItem.line p.1 p.2.data)
          styling :=
            { colors := out.styling.colors ++
                l.map (fun p => colourNameToHex p.2.plotStyle.color)
              dashArray := out.styling.dashArray ++
                l.map (fun p => convertToStrokeStyle p.2.plotStyle.linestyle)
              width := out.styling.width ++ l.map (fun _ => JSValue.num 2) } } := by
  intro l
  induction l with
  | nil => intro out; simp [generateTco3_ZmSeries]
  | cons p rest ih =>
    intro out
    obtain ⟨k, e⟩ := p
    unfold generateTco3_ZmSeries
    rw [ih]
    simp

/-- The value of `generateSeries` for plotId `tco3_zm` in terms of the trimmed
table, on any table. -/
theorem generateSeries_zm_trimmed (stats : Quantiles) (data : ModelTable)
    (modelsSlice : ModelsSlice) (includedModels : List String)
    (hinc : getIncludedModels modelsSlice = Except.ok includedModels) :
    generateSeries stats "tco3_zm" data modelsSlice =
      Except.ok
        { series := (trimData includedModels data.entries []).map
            (fun p => SeriesItem.line p.1 p.2.data)
          styling :=
            { colors := (trimData includedModels data.entries []).map
                (fun p => colourNameToHex p.2.plotStyle.color)
              dashArray := (trimData includedModels data.entries []).map
                (fun p => convertToStrokeStyle p.2.plotStyle.linestyle)
              width := (trimData includedModels data.entries []).map
                (fun _ => JSValue.num 2) } } := by
  unfold generateSeries
  simp only [hinc, if_true, generateTco3_ZmSeries_eq, List.nil_append]

theorem generateSeries_zm_eq (stats : Quantiles) (data : ModelTable)
    (modelsSlice : ModelsSlice) (includedModels : List String)
    (hinc : getIncludedModels modelsSlice = Except.ok includedModels)
    (hplain : data.plainNames) :
    generateSeries stats "tco3_zm" data modelsSlice =
      Except.ok
        { series :=
            (includedEntries includedModels data).map (fun p => SeriesItem.line p.1 p.2.data)
          styling :=
            { colors := (includedEntries includedModels data).map
                (fun p => colourNameToHex p.2.plotStyle.color)
              dashArray := (includedEntries includedModels data).map
                (fun p => convertToStrokeStyle p.2.plotStyle.linestyle)
              width := (includedEntries includedModels data).map (fun _ => JSValue.num 2) } } := by
  rw [generateSeries_zm_trimmed stats data modelsSlice includedModels hinc,
    trimData_entries includedModels data hplain]

/-- On a table with an own key `__proto__` the assignment to `trimmedData`
creates no entry for it: the model of that name is included, yet only `modelB`
gets a series and a styling slot. -/
theorem generateSeries_zm_proto_key :
    getIncludedModels protoKeySlice = Except.ok ["__proto__", "modelB"] ∧
    (generateSeries sampleQuantiles "tco3_zm" protoKeyTable protoKeySlice).toOption.map
        (fun out => (out.series.map SeriesItem.name, out.styling.colors)) =
      some (["modelB"], [JSValue.str "#0000ff"]) := by
  refine ⟨by decide, by decide⟩

theorem mem_includedEntries (inc : List String) (data : ModelTable) (p : String × ModelEntry)
    (hp : p ∈ includedEntries inc data) :
    p.1 ∈ inc ∧ assocGet data.entries p.1 = some p.2 := by
  unfold includedEntries at hp
  rw [List.mem_filter] at hp
  exact ⟨by simpa using hp.2, assocGet_of_mem_nodup _ data.nodup _ _ hp.1⟩

/-! ## Lemmas on the string order of `sort()` -/

theorem codeUnitsLe_total : ∀ a b : List Nat, codeUnitsLe a b = true ∨ codeUnitsLe b a = true := by
  intro a
  induction a with
  | nil => intro b; left; simp [codeUnitsLe]
  | cons x xs ih =>
    intro b
    cases b with
    | nil => right; simp [codeUnitsLe]
    | cons y ys =>
      unfold codeUnitsLe
      rcases Nat.lt_trichotomy x y with h | h | h
      · left; simp [h]
      · subst h
        simpa using ih ys
      · right; simp [h]

theorem codeUnitsLe_trans : ∀ a b c : List Nat,
    codeUnitsLe a b = true → codeUnitsLe b c = true → codeUnitsLe a c = true := by
  intro a
  induction a with
  | nil => intro b c _ _; simp [codeUnitsLe]
  | cons x xs ih =>
    intro b c hab hbc
    cases b with
    | nil => simp [codeUnitsLe] at hab
    | cons y ys =>
      cases c with
      | nil => simp [codeUnitsLe] at hbc
      | cons z zs =>
        unfold codeUnitsLe at hab hbc ⊢
        by_cases hxy : x < y
        · by_cases hyz : y < z
          · rw [if_pos (by omega)]
          · by_cases hzy : z < y
            · simp [hyz, hzy] at hbc
            · have : y = z := by omega
              subst this
              rw [if_pos hxy]
        · by_cases hyx : y < x
          · simp [hxy, hyx] at hab
          · have hxy' : x = y := by omega
            subst hxy'
            simp only [lt_self_iff_false, if_false] at hab
            by_cases hxz : x < z
            · rw [if_pos hxz]
            · by_cases hzx : z < x
              · simp [hxz, hzx] at hbc
              · simp only [hxz, hzx, if_false] at hbc ⊢
                exact ih ys zs hab hbc

theorem codeUnitsLe_antisymm : ∀ a b : List Nat,
    codeUnitsLe a b = true → codeUnitsLe b a = true → a = b := by
  intro a
  induction a with
  | nil =>
    intro b _ hba
    cases b with
    | nil => rfl
    | cons y ys => simp [codeUnitsLe] at hba
  | cons x xs ih =>
    intro b hab hba
    cases b with
    | nil => simp [codeUnitsLe] at hab
    | cons y ys =>
      unfold codeUnitsLe at hab hba
      by_cases hxy : x < y
      · have : ¬ y < x := by omega
        simp [hxy, this] at hba
      · by_cases hyx : y < x
        · simp [hxy, hyx] at hab
        · have hxy' : x = y := by omega
          subst hxy'
          simp only [lt_self_iff_false, if_false] at hab hba
          rw [ih ys hab hba]

/-- The number read back from its digits, least significant first. -/
theorem digitsRev_value : ∀ (fuel n : Nat), n < fuel →
    (digitsRev fuel n).foldr (fun d acc => d + 10 * acc) 0 = n := by
  intro fuel
  induction fuel with
  | zero => intro n h; omega
  | succ fuel ih =>
    intro n h
    unfold digitsRev
    by_cases h10 : n < 10
    · simp [h10]
    · rw [if_neg h10]
      simp only [List.foldr_cons]
      rw [ih (n / 10) (by omega)]
      omega

theorem digitsRev_injective (m n : Nat)
    (h : digitsRev (m + 1) m = digitsRev (n + 1) n) : m = n := by
  have hm := digitsRev_value (m + 1) m (by omega)
  have hn := digitsRev_value (n + 1) n (by omega)
  rw [h] at hm
  omega

theorem digitString_injective (m n : Nat)
    (h : ((digitsRev (m + 1) m).reverse).map (fun d => 48 + d) =
      ((digitsRev (n + 1) n).reverse).map (fun d => 48 + d)) : m = n := by
  have hinj : Function.Injective (fun d : Nat => 48 + d) := fun a b hab => by
    simp only at hab
    omega
  have h1 := List.map_injective_iff.mpr hinj h
  exact digitsRev_injective m n (List.reverse_injective h1)

theorem numberToString_injective (a b : Int) (h : numberToString a = numberToString b) :
    a = b := by
  unfold numberToString at h
  simp only at h
  have hne : ∀ (n : Nat) (l : List Nat),
      45 :: l ≠ ((digitsRev (n + 1) n).reverse).map (fun d => 48 + d) := by
    intro n l heq
    have hmem : (45 : Nat) ∈ ((digitsRev (n + 1) n).reverse).map (fun d => 48 + d) := by
      rw [← heq]
      simp
    rw [List.mem_map] at hmem
    obtain ⟨d, _, hd⟩ := hmem
    omega
  by_cases ha : a < 0
  · by_cases hb : b < 0
    · rw [if_pos ha, if_pos hb] at h
      have := digitString_injective _ _ (List.cons.inj h).2
      omega
    · rw [if_pos ha, if_neg hb] at h
      exact absurd h (hne _ _)
  · by_cases hb : b < 0
    · rw [if_neg ha, if_pos hb] at h
      exact absurd h.symm (hne _ _)
    · rw [if_neg ha, if_neg hb] at h
      have := digitString_injective _ _ h
      omega

/-- The result of `sort()` on a bucket depends only on the multiset of its
values. -/
theorem jsSortNumbers_perm (l₁ l₂ : List Int) (h : l₁.Perm l₂) :
    jsSortNumbers l₁ = jsSortNumbers l₂ := by
  haveI : IsTotal Int (fun a b => codeUnitsLe (numberToString a) (numberToString b) = true) :=
    ⟨fun a b => codeUnitsLe_total _ _⟩
  haveI : IsTrans Int (fun a b => codeUnitsLe (numberToString a) (numberToString b) = true) :=
    ⟨fun a b c => codeUnitsLe_trans _ _ _⟩
  haveI : IsAntisymm Int
      (fun a b => codeUnitsLe (numberToString a) (numberToString b) = true) :=
    ⟨fun a b hab hba => numberToString_injective a b (codeUnitsLe_antisymm _ _ hab hba)⟩
  unfold jsSortNumbers
  exact List.eq_of_perm_of_sorted
    (((List.perm_insertionSort _ l₁).trans h).trans (List.perm_insertionSort _ l₂).symm)
    (List.sorted_insertionSort _ l₁) (List.sorted_insertionSort _ l₂)

/-! ## Lemmas on the buckets and on the return series -/

theorem assocGet_objSet {α : Type} (l : List (String × α)) (k k' : String) (v : α)
    (h : k ∈ l.map Prod.fst) :
    assocGet (objSet l k v) k' = if k = k' then some v else assocGet l k' := by
  induction l with
  | nil => simp at h
  | cons p rest ih =>
    obtain ⟨a, w⟩ := p
    unfold objSet
    by_cases hak : a = k
    · subst hak
      rw [if_pos rfl]
      unfold assocGet
      by_cases hk : a = k' <;> simp [hk]
    · rw [if_neg hak]
      have hrest : k ∈ rest.map Prod.fst := by
        simp only [List.map_cons, List.mem_cons] at h
        rcases h with h | h
        · exact absurd h.symm hak
        · exact h
      unfold assocGet
      rw [ih hrest]
      by_cases hk : a = k'
      · have : k ≠ k' := fun h => hak (hk.trans h.symm)
        simp [hk, this]
      · simp [hk]

theorem keys_objSet_of_mem {α : Type} (l : List (String × α)) (k : String) (v : α)
    (h : k ∈ l.map Prod.fst) : (objSet l k v).map Prod.fst = l.map Prod.fst := by
  induction l with
  | nil => simp at h
  | cons p rest ih =>
    obtain ⟨a, w⟩ := p
    unfold objSet
    by_cases hak : a = k
    · rw [if_pos hak]
      rfl
    · rw [if_neg hak]
      have hrest : k ∈ rest.map Prod.fst := by
        simp only [List.map_cons, List.mem_cons] at h
        rcases h with h | h
        · exact absurd h.symm hak
        · exact h
      simp only [List.map_cons, ih hrest]

theorem assocGet_of_mem_keys {α : Type} (l : List (String × α)) (k : String)
    (h : k ∈ l.map Prod.fst) : ∃ v, assocGet l k = some v := by
  induction l with
  | nil => simp at h
  | cons p rest ih =>
    obtain ⟨a, w⟩ := p
    unfold assocGet
    by_cases hak : a = k
    · exact ⟨w, by rw [if_pos hak]⟩
    · rw [if_neg hak]
      simp only [List.map_cons, List.mem_cons] at h
      rcases h with h | h
      · exact absurd h.symm hak
      · exact ih h

theorem assocGet_map_self {α : Type} (g : String → α) (l : List String) (r : String)
    (h : r ∈ l) : assocGet (l.map (fun x => (x, g x))) r = some (g r) := by
  induction l with
  | nil => simp at h
  | cons a rest ih =>
    simp only [List.map_cons]
    unfold assocGet
    by_cases har : a = r
    · rw [if_pos har, har]
    · rw [if_neg har]
      rcases List.mem_cons.mp h with h | h
      · exact absurd h.symm har
      · exact ih h

theorem valuesFor_cons (x : String) (y : Int) (rest : List (String × Int)) (r : String) :
    valuesFor ((x, y) :: rest) r =
      if x = r then y :: valuesFor rest r else valuesFor rest r := by
  unfold valuesFor
  by_cases h : x = r <;> simp [List.filter_cons, h]

theorem collected_cons (p : String × ModelEntry) (rest : List (String × ModelEntry))
    (r : String) :
    collected (p :: rest) r = valuesFor p.2.data.pairs r ++ collected rest r := by
  simp [collected, valuesFor, List.flatMap_cons, List.filter_append]

theorem pushPairs_ok : ∀ (pairs : List (String × Int)) (staticData : List (String × List Int)),
    (∀ q ∈ pairs, q.1 ∈ staticData.map Prod.fst) →
    ∃ staticData', pushPairs staticData pairs = Except.ok staticData' ∧
      staticData'.map Prod.fst = staticData.map Prod.fst ∧
      ∀ r, assocGet staticData' r =
        (assocGet staticData r).map (fun bucket => bucket ++ valuesFor pairs r) := by
  intro pairs
  induction pairs with
  | nil =>
    intro sd _
    refine ⟨sd, rfl, rfl, ?_⟩
    intro r
    cases assocGet sd r <;> simp [valuesFor]
  | cons q rest ih =>
    intro sd hkeys
    obtain ⟨x, y⟩ := q
    have hx : x ∈ sd.map Prod.fst := hkeys (x, y) (by simp)
    obtain ⟨bucket, hbucket⟩ := assocGet_of_mem_keys sd x hx
    have hkeys1 : (objSet sd x (bucket ++ [y])).map Prod.fst = sd.map Prod.fst :=
      keys_objSet_of_mem sd x _ hx
    obtain ⟨sd', hrun, hk', hget⟩ := ih (objSet sd x (bucket ++ [y])) (by
      intro q hq
      rw [hkeys1]
      exact hkeys q (List.mem_cons_of_mem _ hq))
    refine ⟨sd', ?_, hk'.trans hkeys1, ?_⟩
    · unfold pushPairs objGet
      simp only [hbucket]
      exact hrun
    · intro r
      rw [hget r, assocGet_objSet sd x r _ hx, valuesFor_cons]
      by_cases hxr : x = r
      · subst hxr
        simp [hbucket]
      · simp [hxr]

theorem regionPairsOf_of_known (d : ModelData) (h : hasKnownRegions d = true) :
    regionPairsOf d = Except.ok d.pairs ∧ ∀ q ∈ d.pairs, q.1 ∈ ALL := by
  cases d with
  | regionPairs pairs =>
    refine ⟨rfl, ?_⟩
    intro q hq
    simp only [hasKnownRegions, List.all_eq_true, decide_eq_true_eq] at h
    exact h q hq
  | yearSeries values =>
    cases values with
    | nil => exact ⟨rfl, by simp [ModelData.pairs]⟩
    | cons v vs => simp [hasKnownRegions] at h

theorem collectBuckets_ok : ∀ (data : List (String × ModelEntry))
    (staticData : List (String × List Int)),
    (∀ p ∈ data, hasKnownRegions p.2.data = true) →
    staticData.map Prod.fst = ALL →
    ∃ staticData', collectBuckets staticData data = Except.ok staticData' ∧
      staticData'.map Prod.fst = ALL ∧
      ∀ r, assocGet staticData' r =
        (assocGet staticData r).map (fun bucket => bucket ++ collected data r) := by
  intro data
  induction data with
  | nil =>
    intro sd _ hk
    refine ⟨sd, rfl, hk, ?_⟩
    intro r
    cases assocGet sd r <;> simp [collected]
  | cons p rest ih =>
    intro sd hknown hk
    obtain ⟨hpairs, hlabels⟩ := regionPairsOf_of_known p.2.data (hknown p (by simp))
    obtain ⟨sd1, hrun1, hk1, hget1⟩ := pushPairs_ok p.2.data.pairs sd (by
      intro q hq
      rw [hk]
      exact hlabels q hq)
    obtain ⟨sd', hrun, hk', hget⟩ := ih sd1
      (fun p' hp' => hknown p' (List.mem_cons_of_mem _ hp')) (hk1.trans hk)
    refine ⟨sd', ?_, hk', ?_⟩
    · obtain ⟨model, modelData⟩ := p
      unfold collectBuckets
      simp only at hpairs hrun1
      simp only [hpairs, hrun1]
      exact hrun
    · intro r
      rw [hget r, hget1 r, collected_cons]
      cases assocGet sd r <;> simp

theorem summarizeBuckets_ok (stats : Quantiles) (staticData : List (String × List Int)) :
    ∀ (regions : List String) (boxPlotValues : List (String × List JSValue)),
      regions.Nodup → (∀ r ∈ regions, r ≠ "__proto__") →
      (∀ r ∈ regions, r ∉ boxPlotValues.map Prod.fst) →
      (∀ r ∈ regions, r ∈ staticData.map Prod.fst) →
      summarizeBuckets stats staticData regions boxPlotValues =
        Except.ok (boxPlotValues ++ regions.map (fun r =>
          (r, fiveValues stats (jsSortNumbers ((assocGet staticData r).getD []))))) := by
  intro regions
  induction regions with
  | nil => intro acc _ _ _ _; simp [summarizeBuckets]
  | cons region rest ih =>
    intro acc hnd hproto hdis hkeys
    obtain ⟨bucket, hbucket⟩ := assocGet_of_mem_keys staticData region (hkeys region (by simp))
    rw [List.nodup_cons] at hnd
    unfold summarizeBuckets objGet
    simp only [hbucket]
    rw [objSet_of_not_mem acc region _ (hproto region (by simp)) (hdis region (by simp)),
      ih _ hnd.2 (fun r hr => hproto r (List.mem_cons_of_mem _ hr))]
    · simp [hbucket]
    · intro r hr hmem
      simp only [List.map_append, List.map_cons, List.map_nil, List.mem_append,
        List.mem_singleton] at hmem
      rcases hmem with hacc | rfl
      · exact hdis r (List.mem_cons_of_mem _ hr) hacc
      · exact hnd.1 hr
    · intro r hr
      exact hkeys r (List.mem_cons_of_mem _ hr)

theorem ALL_eq :
    ALL = ["Antarctic(Oct)", "Arctic(Mar)", "Global", "NH mid-lat", "Near global",
      "SH mid-lat", "Tropics", "User region"] := by
  decide

theorem ALL_nodup : ALL.Nodup := by
  rw [ALL_eq]
  decide

theorem ALL_not_proto : ∀ r ∈ ALL, r ≠ "__proto__" := by
  decide

theorem staticData_init :
    ALL.foldl (fun o region => objSet o region ([] : List Int)) [] =
      ALL.map (fun r => (r, [])) := by
  decide

/-- The value of `calculateBoxPlotValues` on data whose labels are all known:
for each region of `ALL`, in order, the five values read off the sorted bucket
of the values collected for it. -/
theorem calculateBoxPlotValues_eq (stats : Quantiles) (data : List (String × ModelEntry))
    (hknown : ∀ p ∈ data, hasKnownRegions p.2.data = true) :
    calculateBoxPlotValues stats data =
      Except.ok (ALL.map (fun r =>
        (r, fiveValues stats (jsSortNumbers (collected data r))))) := by
  unfold calculateBoxPlotValues
  simp only [staticData_init]
  obtain ⟨sd', hrun, hk', hget⟩ :=
    collectBuckets_ok data (ALL.map (fun r => (r, []))) hknown
      (by rw [List.map_map]; exact List.map_id _)
  simp only [hrun]
  rw [summarizeBuckets_ok stats sd' ALL [] ALL_nodup ALL_not_proto (by simp)
    (by rw [hk']; exact fun _ h => h)]
  simp only [List.nil_append]
  congr 1
  apply List.map_congr_left
  intro r hr
  rw [hget r, assocGet_map_self (fun _ => ([] : List Int)) ALL r hr]
  simp

theorem scatterSeries_ok : ∀ (l : List (String × ModelEntry)) (out : SeriesOutput),
    (∀ p ∈ l, hasKnownRegions p.2.data = true) →
    scatterSeries l out =
      Except.ok
        { series := out.series ++ l.map (fun p =>
            SeriesItem.scatter p.1 (ALL.map (fun region =>
              (region, valueOrNull (transformPairs [] p.2.data.pairs) region))))
          styling :=
            { colors := out.styling.colors ++
                l.map (fun p => colourNameToHex p.2.plotStyle.color)
              dashArray := out.styling.dashArray
              width := out.styling.width } } := by
  intro l
  induction l with
  | nil => intro out _; simp [scatterSeries]
  | cons p rest ih =>
    intro out hknown
    obtain ⟨hpairs, _⟩ := regionPairsOf_of_known p.2.data (hknown p (by simp))
    obtain ⟨model, modelData⟩ := p
    unfold scatterSeries
    simp only at hpairs
    simp only [hpairs]
    rw [ih _ (fun p' hp' => hknown p' (List.mem_cons_of_mem _ hp'))]
    simp

/-- The value of `generateSeries` for plotId `tco3_return` when the included
models of the table have known region labels. -/
theorem generateSeries_return_eq (stats : Quantiles) (data : ModelTable)
    (modelsSlice : ModelsSlice) (includedModels : List String)
    (hinc : getIncludedModels modelsSlice = Except.ok includedModels)
    (hplain : data.plainNames)
    (hknown : ∀ p ∈ includedEntries includedModels data, hasKnownRegions p.2.data = true) :
    generateSeries stats "tco3_return" data modelsSlice =
      Except.ok
        { series :=
            SeriesItem.boxPlot "box" (ALL.map (fun r =>
              (r, some (fiveValues stats
                (jsSortNumbers (collected (includedEntries includedModels data) r)))))) ::
            (includedEntries includedModels data).map (fun p =>
              SeriesItem.scatter p.1 (ALL.map (fun region =>
                (region, valueOrNull (transformPairs [] p.2.data.pairs) region))))
          styling :=
            { colors := (includedEntries includedModels data).map
                (fun p => colourNameToHex p.2.plotStyle.color)
              dashArray := []
              width := [] } } := by
  unfold generateSeries
  have hne : ¬ ("tco3_return" = "tco3_zm") := by decide
  simp only [hinc, trimData_entries includedModels data hplain, if_neg hne, if_true]
  unfold generateTco3_ReturnSeries
  simp only [calculateBoxPlotValues_eq stats _ hknown]
  rw [scatterSeries_ok _ _ hknown]
  simp only [List.nil_append, List.singleton_append]
  have hbox : ∀ g : String → List JSValue,
      ALL.map (fun region => (region, assocGet (ALL.map (fun r => (r, g r))) region)) =
        ALL.map (fun r => (r, some (g r))) := by
    intro g
    apply List.map_congr_left
    intro r hr
    rw [assocGet_map_self g ALL r hr]
  rw [hbox]

/-! ## Claims on the normaliser -/

/-- C1 (as stated, refuted at its example): over the range [1959, 1967] the
call `normalizeArray([1960, 1965], [10, 20])` is not the array
`[null, 10, null, null, null, 20, null, null, null]` that the claim gives; the
value 20 of the year 1965 belongs to index 6, not 5. -/
theorem normalizeArray_example_refuted :
    normalizeArray 1959 1967 [1960, 1965] [JSValue.num 10, JSValue.num 20] ≠
      [JSValue.null, JSValue.num 10, JSValue.null, JSValue.null, JSValue.null,
       JSValue.num 20, JSValue.null, JSValue.null, JSValue.null] := by
  decide

/-- C1 (amended): for strictly increasing years that all lie in
`[START_YEAR, END_YEAR]` and values of the same length, the result at index `i`
is `values[j]` when `years[j] = START_YEAR + i`, and `null` when no input year
equals `START_YEAR + i`. Empty input yields only `null`, and
`normalizeArray([1960, 1965], [10, 20])` over [1959, 1967] is
`[null, 10, null, null, null, null, 20, null, null]`. -/
theorem normalizeArray_spec (START_YEAR END_YEAR : Int) (years : List Int)
    (values : List JSValue)
    (hsorted : years.Pairwise (· < ·))
    (hrange : ∀ y ∈ years, START_YEAR ≤ y ∧ y ≤ END_YEAR)
    (hlen : years.length = values.length) :
    (∀ i : Nat, (i : Int) ≤ END_YEAR - START_YEAR →
      (∀ (j : Nat) (v : JSValue), years[j]? = some (START_YEAR + (i : Int)) →
        values[j]? = some v →
        (normalizeArray START_YEAR END_YEAR years values)[i]? = some v) ∧
      (∀ j : Nat, years[j]? = some (START_YEAR + (i : Int)) → ∃ v, values[j]? = some v) ∧
      ((∀ y ∈ years, y ≠ START_YEAR + (i : Int)) →
        (normalizeArray START_YEAR END_YEAR years values)[i]? = some JSValue.null)) ∧
    normalizeArray START_YEAR END_YEAR [] [] =
      List.replicate (END_YEAR - START_YEAR + 1).toNat JSValue.null ∧
    normalizeArray 1959 1967 [1960, 1965] [JSValue.num 10, JSValue.num 20] =
      [JSValue.null, JSValue.num 10, JSValue.null, JSValue.null, JSValue.null,
       JSValue.null, JSValue.num 20, JSValue.null, JSValue.null] := by
  refine ⟨?_, ?_, by decide⟩
  · intro i hi
    have hlow : ∀ k x, 0 ≤ k → years[k]? = some x → START_YEAR ≤ x := by
      intro k x _ hx
      exact (hrange x (List.getElem?_mem hx)).1
    have hi' : i < (END_YEAR - START_YEAR + 1).toNat := by omega
    obtain ⟨h1, h2⟩ :=
      normalizeLoop_get years values hsorted _ START_YEAR 0 hlow i hi'
    unfold normalizeArray
    rw [IMPLICIT_YEAR_LIST_eq]
    refine ⟨?_, ?_, ?_⟩
    · intro j v hj hv
      rw [h1 j (Nat.zero_le _) hj]
      simp [List.getD_eq_getElem?_getD, hv]
    · intro j hj
      obtain ⟨hjlt, _⟩ := List.getElem?_eq_some.mp hj
      exact ⟨values[j], List.getElem?_eq_getElem (by omega)⟩
    · intro hnone
      apply h2
      intro j _ hj
      exact hnone _ (List.getElem?_mem hj) rfl
  · unfold normalizeArray
    rw [normalizeLoop_nil, IMPLICIT_YEAR_LIST_eq, length_yearsFrom]

/-- Witness for C1 (amended): the years 1960 and 1965 over the range
[1959, 1967]. -/
theorem normalizeArray_spec_witness :
    (normalizeArray 1959 1967 [1960, 1965] [JSValue.num 10, JSValue.num 20])[6]? =
      some (JSValue.num 20) :=
  ((normalizeArray_spec 1959 1967 [1960, 1965] [JSValue.num 10, JSValue.num 20]
    (by decide) (by decide) (by decide)).1 6 (by decide)).1 1 (JSValue.num 20)
    (by decide) (by decide)

/-- C2: whatever the two input lists are, the list returned by `normalizeArray`
has exactly `END_YEAR - START_YEAR + 1` elements, the length of the implicit
year list. -/
theorem normalizeArray_length (START_YEAR END_YEAR : Int) (hyears : START_YEAR ≤ END_YEAR)
    (years : List Int) (values : List JSValue) :
    ((normalizeArray START_YEAR END_YEAR years values).length : Int) =
      END_YEAR - START_YEAR + 1 ∧
    (normalizeArray START_YEAR END_YEAR years values).length =
      (IMPLICIT_YEAR_LIST START_YEAR END_YEAR).length := by
  unfold normalizeArray
  rw [length_normalizeLoop, IMPLICIT_YEAR_LIST_eq, length_yearsFrom]
  refine ⟨?_, rfl⟩
  omega

/-- Witness for C2: unsorted, out-of-range years and fewer values than years. -/
theorem normalizeArray_length_witness :
    ((normalizeArray 1959 1967 [2000, 1960, 3] [JSValue.num 1]).length : Int) =
      1967 - 1959 + 1 :=
  (normalizeArray_length 1959 1967 (by decide) [2000, 1960, 3] [JSValue.num 1]).1

/-- C3 (the code at the failing input): with the range [1959, 1967], the
strictly increasing years `[1958, 1960]` and the values `[5, 10]`, the leading
year 1958 is never matched, the cursor never moves and `normalizeArray` returns
nine `null`, whereas on the in-range entries alone (`[1960]`, `[10]`) it returns
`10` at index 1. -/
theorem normalizeArray_leading_year_blocks :
    normalizeArray 1959 1967 [1958, 1960] [JSValue.num 5, JSValue.num 10] =
      List.replicate 9 JSValue.null ∧
    inRangeEntries 1959 1967 [1958, 1960] [JSValue.num 5, JSValue.num 10] =
      ([1960], [JSValue.num 10]) ∧
    normalizeArray 1959 1967 [1960] [JSValue.num 10] =
      [JSValue.null, JSValue.num 10, JSValue.null, JSValue.null, JSValue.null,
       JSValue.null, JSValue.null, JSValue.null, JSValue.null] ∧
    normalizeArray 1959 1967 [1958, 1960] [JSValue.num 5, JSValue.num 10] ≠
      normalizeArray 1959 1967
        (inRangeEntries 1959 1967 [1958, 1960] [JSValue.num 5, JSValue.num 10]).1
        (inRangeEntries 1959 1967 [1958, 1960] [JSValue.num 5, JSValue.num 10]).2 := by
  refine ⟨by decide, by decide, by decide, by decide⟩

/-! ## Claims on the line series (`tco3_zm`) -/

/-- C4: for plotId `tco3_zm` and a table none of whose models is named
`__proto__`, the returned series are the models of the table that are in the
included set, in table order, each with its stored data unchanged; so the
series names are the included model names of the table in table order and
their number is the number of included table models. -/
theorem generateSeries_zm_series (stats : Quantiles) (data : ModelTable)
    (modelsSlice : ModelsSlice) (includedModels : List String)
    (hinc : getIncludedModels modelsSlice = Except.ok includedModels)
    (hplain : data.plainNames) :
    ∃ out, generateSeries stats "tco3_zm" data modelsSlice = Except.ok out ∧
      out.series =
        (data.entries.filter (fun p => decide (p.1 ∈ includedModels))).map
          (fun p => SeriesItem.line p.1 p.2.data) ∧
      out.series.map SeriesItem.name =
        (data.entries.map Prod.fst).filter (fun m => decide (m ∈ includedModels)) ∧
      out.series.length =
        ((data.entries.map Prod.fst).filter (fun m => decide (m ∈ includedModels))).length := by
  refine ⟨_, generateSeries_zm_eq stats data modelsSlice includedModels hinc hplain,
    rfl, ?_, ?_⟩
  · simp only [includedEntries, List.map_map, List.filter_map]
    rfl
  · simp only [includedEntries, List.filter_map, List.length_map]
    rfl

/-- Witness for C4: the sample table, where `modelB` and `modelC` are
included. -/
theorem generateSeries_zm_series_witness :
    getIncludedModels sampleSlice = Except.ok ["modelC", "modelB"] ∧
    sampleZmTable.plainNames ∧
    ∃ out, generateSeries sampleQuantiles "tco3_zm" sampleZmTable sampleSlice = Except.ok out ∧
      out.series =
        (sampleZmTable.entries.filter (fun p => decide (p.1 ∈ ["modelC", "modelB"]))).map
          (fun p => SeriesItem.line p.1 p.2.data) ∧
      out.series.map SeriesItem.name =
        (sampleZmTable.entries.map Prod.fst).filter
          (fun m => decide (m ∈ ["modelC", "modelB"])) ∧
      out.series.length =
        ((sampleZmTable.entries.map Prod.fst).filter
          (fun m => decide (m ∈ ["modelC", "modelB"]))).length :=
  ⟨by decide, by decide,
    generateSeries_zm_series sampleQuantiles sampleZmTable sampleSlice ["modelC", "modelB"]
      (by decide) (by decide)⟩

/-- C5: for plotId `tco3_zm` the arrays `colors`, `width` and `dashArray` have
the length of `series` and are aligned with it: at every index the colour is
`colourNameToHex` of the colour of the model named by the series, the width
is 2 and the dash code is `convertToStrokeStyle` of that model's line style
(solid 0, dotted 1, dashed 3). -/
theorem generateSeries_zm_styling (stats : Quantiles) (data : ModelTable)
    (modelsSlice : ModelsSlice) (includedModels : List String)
    (hinc : getIncludedModels modelsSlice = Except.ok includedModels) :
    ∃ out, generateSeries stats "tco3_zm" data modelsSlice = Except.ok out ∧
      out.styling.colors.length = out.series.length ∧
      out.styling.width.length = out.series.length ∧
      out.styling.dashArray.length = out.series.length ∧
      (∀ (i : Nat) (item : SeriesItem), out.series[i]? = some item →
        ∃ entry, assocGet data.entries item.name = some entry ∧
          out.styling.colors[i]? = some (colourNameToHex entry.plotStyle.color) ∧
          out.styling.width[i]? = some (JSValue.num 2) ∧
          out.styling.dashArray[i]? =
            some (convertToStrokeStyle entry.plotStyle.linestyle)) ∧
      convertToStrokeStyle "solid" = JSValue.num 0 ∧
      convertToStrokeStyle "dotted" = JSValue.num 1 ∧
      convertToStrokeStyle "dashed" = JSValue.num 3 := by
  refine ⟨_, generateSeries_zm_trimmed stats data modelsSlice includedModels hinc,
    ?_, ?_, ?_, ?_, by decide, by decide, by decide⟩
  · simp
  · simp
  · simp
  · intro i item hitem
    simp only [List.getElem?_map, Option.map_eq_some'] at hitem
    obtain ⟨p, hp, rfl⟩ := hitem
    refine ⟨p.2, assocGet_of_mem_trimData _ _ p (List.getElem?_mem hp), ?_, ?_, ?_⟩
    · simp only [List.getElem?_map, hp, Option.map_some']
    · simp only [List.getElem?_map, hp, Option.map_some']
    · simp only [List.getElem?_map, hp, Option.map_some']

/-- Witness for C5: the sample table. -/
theorem generateSeries_zm_styling_witness :
    getIncludedModels sampleSlice = Except.ok ["modelC", "modelB"] ∧
    ∃ out, generateSeries sampleQuantiles "tco3_zm" sampleZmTable sampleSlice = Except.ok out ∧
      out.styling.colors.length = out.series.length ∧
      out.styling.width.length = out.series.length ∧
      out.styling.dashArray.length = out.series.length ∧
      (∀ (i : Nat) (item : SeriesItem), out.series[i]? = some item →
        ∃ entry, assocGet sampleZmTable.entries item.name = some entry ∧
          out.styling.colors[i]? = some (colourNameToHex entry.plotStyle.color) ∧
          out.styling.width[i]? = some (JSValue.num 2) ∧
          out.styling.dashArray[i]? =
            some (convertToStrokeStyle entry.plotStyle.linestyle)) ∧
      convertToStrokeStyle "solid" = JSValue.num 0 ∧
      convertToStrokeStyle "dotted" = JSValue.num 1 ∧
      convertToStrokeStyle "dashed" = JSValue.num 3 :=
  ⟨by decide,
    generateSeries_zm_styling sampleQuantiles sampleZmTable sampleSlice ["modelC", "modelB"]
      (by decide)⟩

/-! ## Claims on the return series (`tco3_return`) -/

/-- C6: for plotId `tco3_return`, a table whose region labels all belong to
`ALL` and none of whose models is named `__proto__`, and `n` included table
models, the output has `1 + n` series: first the
box-plot entry with 8 items, one per region of `ALL` in sorted label order, each
holding a tuple of 5 values; then, per included model in table order, a scatter
series named after the model with 8 points, one per region in the same
order. -/
theorem generateSeries_return_shape (stats : Quantiles) (data : ModelTable)
    (modelsSlice : ModelsSlice) (includedModels : List String)
    (hinc : getIncludedModels modelsSlice = Except.ok includedModels)
    (hplain : data.plainNames)
    (hknown : ∀ p ∈ data.entries, hasKnownRegions p.2.data = true) :
    ∃ out box, generateSeries stats "tco3_return" data modelsSlice = Except.ok out ∧
      out.series.length =
        1 + (data.entries.filter (fun p => decide (p.1 ∈ includedModels))).length ∧
      out.series[0]? = some (SeriesItem.boxPlot "box" box) ∧
      box.length = 8 ∧
      box.map Prod.fst = ALL ∧
      ALL = ["Antarctic(Oct)", "Arctic(Mar)", "Global", "NH mid-lat", "Near global",
        "SH mid-lat", "Tropics", "User region"] ∧
      ALL.Pairwise (fun a b => codeUnitsLe (codeUnits a) (codeUnits b) = true ∧ a ≠ b) ∧
      (∀ item ∈ box, ∃ tuple, item.2 = some tuple ∧ tuple.length = 5) ∧
      (∀ (i : Nat) (p : String × ModelEntry),
        (data.entries.filter (fun p => decide (p.1 ∈ includedModels)))[i]? = some p →
        ∃ points, out.series[i + 1]? = some (SeriesItem.scatter p.1 points) ∧
          points.length = 8 ∧ points.map Prod.fst = ALL) := by
  have hknown' : ∀ p ∈ includedEntries includedModels data,
      hasKnownRegions p.2.data = true := by
    intro p hp
    exact hknown p (List.mem_filter.mp hp).1
  have hlen : ALL.length = 8 := by decide
  refine ⟨_,
    ALL.map (fun r => (r, some (fiveValues stats
      (jsSortNumbers (collected (includedEntries includedModels data) r))))),
    generateSeries_return_eq stats data modelsSlice includedModels hinc hplain hknown',
    ?_, List.getElem?_cons_zero, ?_, ?_, ALL_eq, by decide, ?_, ?_⟩
  · simp [includedEntries, Nat.add_comm]
  · simp [hlen]
  · rw [List.map_map]
    exact List.map_id _
  · intro item hitem
    rw [List.mem_map] at hitem
    obtain ⟨r, _, rfl⟩ := hitem
    exact ⟨_, rfl, rfl⟩
  · intro i p hp
    refine ⟨ALL.map (fun region =>
      (region, valueOrNull (transformPairs [] p.2.data.pairs) region)), ?_, ?_, ?_⟩
    · simp only [List.getElem?_cons_succ, List.getElem?_map, includedEntries, hp,
        Option.map_some']
    · simp [hlen]
    · rw [List.map_map]
      exact List.map_id _

/-- Witness for C6: the sample return table, where `modelB` and `modelC` are
included. -/
theorem generateSeries_return_shape_witness :
    getIncludedModels sampleSlice = Except.ok ["modelC", "modelB"] ∧
    sampleReturnTable.plainNames ∧
    (∀ p ∈ sampleReturnTable.entries, hasKnownRegions p.2.data = true) ∧
    ∃ out box,
      generateSeries sampleQuantiles "tco3_return" sampleReturnTable sampleSlice =
        Except.ok out ∧
      out.series.length =
        1 + (sampleReturnTable.entries.filter
          (fun p => decide (p.1 ∈ ["modelC", "modelB"]))).length ∧
      out.series[0]? = some (SeriesItem.boxPlot "box" box) ∧
      box.length = 8 ∧
      box.map Prod.fst = ALL ∧
      ALL = ["Antarctic(Oct)", "Arctic(Mar)", "Global", "NH mid-lat", "Near global",
        "SH mid-lat", "Tropics", "User region"] ∧
      ALL.Pairwise (fun a b => codeUnitsLe (codeUnits a) (codeUnits b) = true ∧ a ≠ b) ∧
      (∀ item ∈ box, ∃ tuple, item.2 = some tuple ∧ tuple.length = 5) ∧
      (∀ (i : Nat) (p : String × ModelEntry),
        (sampleReturnTable.entries.filter
          (fun p => decide (p.1 ∈ ["modelC", "modelB"])))[i]? = some p →
        ∃ points, out.series[i + 1]? = some (SeriesItem.scatter p.1 points) ∧
          points.length = 8 ∧ points.map Prod.fst = ALL) :=
  ⟨by decide, by decide, by decide,
    generateSeries_return_shape sampleQuantiles sampleReturnTable sampleSlice
      ["modelC", "modelB"] (by decide) (by decide) (by decide)⟩

/-- C7 (the code at the failing input): the included model `modelB` has exactly
one value for `Global`, the number 0, and its scatter point for `Global` is
`null`, because `transformed[region] || null` treats 0 as missing. The point
for `Tropics` carries the value 2060. -/
theorem generateSeries_return_zero_is_null :
    valuesFor [("Global", 0), ("Tropics", 2060)] "Global" = [0] ∧
    (generateSeries sampleQuantiles "tco3_return" zeroValueTable sampleSlice).toOption.bind
        (fun out => out.series[1]?) =
      some (SeriesItem.scatter "modelB"
        [("Antarctic(Oct)", JSValue.null), ("Arctic(Mar)", JSValue.null),
         ("Global", JSValue.null), ("NH mid-lat", JSValue.null),
         ("Near global", JSValue.null), ("SH mid-lat", JSValue.null),
         ("Tropics", JSValue.num 2060), ("User region", JSValue.null)]) := by
  refine ⟨by decide, by decide⟩

/-- C8 (the code at the failing input): when 9 and 10 are the values collected
for `Global`, `sort()` orders them as the strings "10" and "9", and the tuple of
`Global` starts with 10 and ends with 9: its first component is the largest and
its last the smallest value. On the claim's sample `[3,1,4,1,5,9,2,6]` the
first component is 1 and the last is 9. -/
theorem calculateBoxPlotValues_sorts_as_strings :
    jsSortNumbers [9, 10] = [10, 9] ∧
    ((calculateBoxPlotValues sampleQuantiles nineTenTable.entries).toOption.bind
        (fun boxPlotValues => assocGet boxPlotValues "Global")).map
        (fun tuple => (tuple[0]?, tuple[4]?, tuple.length)) =
      some (some (JSValue.num 10), some (JSValue.num 9), 5) ∧
    ((calculateBoxPlotValues sampleQuantiles eightValuesTable.entries).toOption.bind
        (fun boxPlotValues => assocGet boxPlotValues "Global")).map
        (fun tuple => (tuple[0]?, tuple[4]?, tuple.length)) =
      some (some (JSValue.num 1), some (JSValue.num 9), 5) := by
  refine ⟨by decide, by decide, by decide⟩

/-- C9 (the code at the failing input): when the included model `modelB` has a
pair for the unknown region `Mars`, `generateSeries` with plotId `tco3_return`
throws a `TypeError` (`staticData["Mars"]` is `undefined` and has no `push`),
whereas on the table with that pair removed it returns a box-plot entry and one
scatter series. -/
theorem generateSeries_return_unknown_region_throws :
    generateSeries sampleQuantiles "tco3_return" unknownRegionTable sampleSlice =
      Except.error JSError.typeError ∧
    (generateSeries sampleQuantiles "tco3_return" unknownRegionRemovedTable
        sampleSlice).toOption.map (fun out => out.series.map SeriesItem.name) =
      some ["box", "modelB"] ∧
    generateSeries sampleQuantiles "tco3_return" unknownRegionTable sampleSlice ≠
      generateSeries sampleQuantiles "tco3_return" unknownRegionRemovedTable sampleSlice := by
  refine ⟨by decide, by decide, by decide⟩

/-- C10: when two tables with known region labels have, for every region, the
same multiset of collected values, `calculateBoxPlotValues` returns the same
tuples for both, one per region of `ALL`; the helpers `q25`, `median` and `q75`
are any fixed functions of the sorted bucket. -/
theorem calculateBoxPlotValues_order_independent (stats : Quantiles)
    (data₁ data₂ : ModelTable)
    (hknown₁ : ∀ p ∈ data₁.entries, hasKnownRegions p.2.data = true)
    (hknown₂ : ∀ p ∈ data₂.entries, hasKnownRegions p.2.data = true)
    (hsame : ∀ r ∈ ALL, (collected data₁.entries r).Perm (collected data₂.entries r)) :
    calculateBoxPlotValues stats data₁.entries = calculateBoxPlotValues stats data₂.entries ∧
    ∃ boxPlotValues, calculateBoxPlotValues stats data₁.entries = Except.ok boxPlotValues ∧
      boxPlotValues.map Prod.fst = ALL ∧
      ∀ r ∈ ALL, assocGet boxPlotValues r =
        some (fiveValues stats (jsSortNumbers (collected data₂.entries r))) := by
  have heq : ALL.map (fun r =>
      (r, fiveValues stats (jsSortNumbers (collected data₁.entries r)))) =
      ALL.map (fun r =>
      (r, fiveValues stats (jsSortNumbers (collected data₂.entries r)))) := by
    apply List.map_congr_left
    intro r hr
    rw [jsSortNumbers_perm _ _ (hsame r hr)]
  rw [calculateBoxPlotValues_eq stats _ hknown₁, calculateBoxPlotValues_eq stats _ hknown₂, heq]
  refine ⟨rfl, _, rfl, ?_, ?_⟩
  · rw [List.map_map]
    exact List.map_id _
  · intro r hr
    exact assocGet_map_self
      (fun r => fiveValues stats (jsSortNumbers (collected data₂.entries r))) ALL r hr

/-- Witness for C10: the sample return table and its reordering. -/
theorem calculateBoxPlotValues_order_independent_witness :
    (∀ r ∈ ALL, (collected sampleReturnTable.entries r).Perm
      (collected sampleReturnTableReordered.entries r)) ∧
    calculateBoxPlotValues sampleQuantiles sampleReturnTable.entries =
      calculateBoxPlotValues sampleQuantiles sampleReturnTableReordered.entries :=
  ⟨by decide,
    (calculateBoxPlotValues_order_independent sampleQuantiles sampleReturnTable
      sampleReturnTableReordered (by decide) (by decide) (by decide)).1⟩

/-! ## Lemmas and claim on the included models -/

theorem mem_setAdd (s : List String) (x m : String) : m ∈ setAdd s x ↔ m ∈ s ∨ m = x := by
  unfold setAdd
  by_cases h : x ∈ s
  · rw [if_pos h]
    constructor
    · exact Or.inl
    · rintro (hm | rfl)
      · exact hm
      · exact h
  · rw [if_neg h]
    simp

theorem includeGroupModels_mem (group : ModelGroup) :
    ∀ (l acc acc' : List String), includeGroupModels group l acc = Except.ok acc' →
      ∀ m, m ∈ acc' ↔ m ∈ acc ∨ (m ∈ l ∧ assocGet group.models m = some true) := by
  intro l
  induction l with
  | nil =>
    intro acc acc' h m
    simp only [includeGroupModels, Except.ok.injEq] at h
    subst h
    simp
  | cons model rest ih =>
    intro acc acc' h m
    unfold includeGroupModels objGet at h
    cases hget : assocGet group.models model with
    | some v =>
      simp only [hget] at h
      cases v with
      | false =>
        simp only [Bool.not_false, if_true] at h
        rw [ih acc acc' h m]
        constructor
        · rintro (hm | ⟨hm, hv⟩)
          · exact Or.inl hm
          · exact Or.inr ⟨List.mem_cons_of_mem _ hm, hv⟩
        · rintro (hm | ⟨hm, hv⟩)
          · exact Or.inl hm
          · rcases List.mem_cons.mp hm with rfl | hm
            · rw [hget] at hv
              cases hv
            · exact Or.inr ⟨hm, hv⟩
      | true =>
        simp only [Bool.not_true, Bool.false_eq_true, if_false] at h
        rw [ih _ acc' h m, mem_setAdd]
        constructor
        · rintro ((hm | rfl) | ⟨hm, hv⟩)
          · exact Or.inl hm
          · exact Or.inr ⟨List.mem_cons_self _ _, hget⟩
          · exact Or.inr ⟨List.mem_cons_of_mem _ hm, hv⟩
        · rintro (hm | ⟨hm, hv⟩)
          · exact Or.inl (Or.inl hm)
          · rcases List.mem_cons.mp hm with rfl | hm
            · exact Or.inl (Or.inr rfl)
            · exact Or.inr ⟨hm, hv⟩
    | none =>
      simp only [hget] at h
      by_cases hp : model ∈ objectPrototypeKeys
      · simp only [if_pos hp] at h
        rw [ih acc acc' h m]
        constructor
        · rintro (hm | ⟨hm, hv⟩)
          · exact Or.inl hm
          · exact Or.inr ⟨List.mem_cons_of_mem _ hm, hv⟩
        · rintro (hm | ⟨hm, hv⟩)
          · exact Or.inl hm
          · rcases List.mem_cons.mp hm with rfl | hm
            · rw [hget] at hv
              cases hv
            · exact Or.inr ⟨hm, hv⟩
      · simp only [if_neg hp] at h
        cases h

theorem includeGroupModels_ok (group : ModelGroup) :
    ∀ (l acc : List String), (∀ m ∈ l, (assocGet group.models m).isSome = true) →
      ∃ acc', includeGroupModels group l acc = Except.ok acc' := by
  intro l
  induction l with
  | nil => intro acc _; exact ⟨acc, rfl⟩
  | cons model rest ih =>
    intro acc hrec
    have hrest : ∀ m ∈ rest, (assocGet group.models m).isSome = true :=
      fun m hm => hrec m (List.mem_cons_of_mem _ hm)
    obtain ⟨v, hv⟩ := Option.isSome_iff_exists.mp (hrec model (List.mem_cons_self _ _))
    unfold includeGroupModels objGet
    simp only [hv]
    cases v with
    | false => simpa using ih acc hrest
    | true => simpa using ih (setAdd acc model) hrest

theorem getIncludedModelsLoop_mem (modelGroups : List (Nat × ModelGroup)) :
    ∀ (ids : List Nat) (acc acc' : List String),
      getIncludedModelsLoop modelGroups ids acc = Except.ok acc' →
      ∀ m, m ∈ acc' ↔ m ∈ acc ∨ ∃ id ∈ ids, ∃ group, modelGroups.lookup id = some group ∧
        group.isVisible = true ∧ m ∈ group.modelList ∧
        assocGet group.models m = some true := by
  intro ids
  induction ids with
  | nil =>
    intro acc acc' h m
    simp only [getIncludedModelsLoop, Except.ok.injEq] at h
    subst h
    simp
  | cons id rest ih =>
    intro acc acc' h m
    unfold getIncludedModelsLoop at h
    cases hlook : modelGroups.lookup id with
    | none =>
      simp only [hlook] at h
      cases h
    | some group =>
      simp only [hlook] at h
      cases hvis : group.isVisible with
      | false =>
        simp only [hvis, Bool.not_false, if_true] at h
        rw [ih acc acc' h m]
        constructor
        · rintro (hm | ⟨id', hid', g, hg, hrest⟩)
          · exact Or.inl hm
          · exact Or.inr ⟨id', List.mem_cons_of_mem _ hid', g, hg, hrest⟩
        · rintro (hm | ⟨id', hid', g, hg, hgv, hrest⟩)
          · exact Or.inl hm
          · rcases List.mem_cons.mp hid' with rfl | hid'
            · rw [hlook] at hg
              cases hg
              rw [hvis] at hgv
              cases hgv
            · exact Or.inr ⟨id', hid', g, hg, hgv, hrest⟩
      | true =>
        simp only [hvis, Bool.not_true, Bool.false_eq_true, if_false] at h
        cases hinner : includeGroupModels group group.modelList acc with
        | error e =>
          simp only [hinner] at h
          cases h
        | ok acc₁ =>
          simp only [hinner] at h
          rw [ih acc₁ acc' h m, includeGroupModels_mem group _ acc acc₁ hinner m]
          constructor
          · rintro ((hm | ⟨hm, hv⟩) | ⟨id', hid', g, hg, hrest⟩)
            · exact Or.inl hm
            · exact Or.inr ⟨id, List.mem_cons_self _ _, group, hlook, hvis, hm, hv⟩
            · exact Or.inr ⟨id', List.mem_cons_of_mem _ hid', g, hg, hrest⟩
          · rintro (hm | ⟨id', hid', g, hg, hgv, hm, hv⟩)
            · exact Or.inl (Or.inl hm)
            · rcases List.mem_cons.mp hid' with rfl | hid'
              · rw [hlook] at hg
                cases hg
                exact Or.inl (Or.inr ⟨hm, hv⟩)
              · exact Or.inr ⟨id', hid', g, hg, hgv, hm, hv⟩

theorem getIncludedModelsLoop_ok (modelGroups : List (Nat × ModelGroup)) :
    ∀ (ids : List Nat) (acc : List String),
      (∀ id ∈ ids, ∃ group, modelGroups.lookup id = some group ∧
        ∀ m ∈ group.modelList, (assocGet group.models m).isSome = true) →
      ∃ acc', getIncludedModelsLoop modelGroups ids acc = Except.ok acc' := by
  intro ids
  induction ids with
  | nil => intro acc _; exact ⟨acc, rfl⟩
  | cons id rest ih =>
    intro acc hcons
    have hrest := fun id' (h : id' ∈ rest) => hcons id' (List.mem_cons_of_mem _ h)
    obtain ⟨group, hlook, hrec⟩ := hcons id (List.mem_cons_self _ _)
    unfold getIncludedModelsLoop
    simp only [hlook]
    cases hvis : group.isVisible with
    | false => simpa using ih acc hrest
    | true =>
      obtain ⟨acc₁, hacc₁⟩ := includeGroupModels_ok group group.modelList acc hrec
      simpa [hacc₁] using ih acc₁ hrest

theorem consistent_iff (modelsSlice : ModelsSlice) (h : modelsSlice.consistent = true) :
    ∀ id ∈ modelsSlice.modelGroupList, ∃ group,
      modelsSlice.modelGroups.lookup id = some group ∧
      ∀ m ∈ group.modelList, (assocGet group.models m).isSome = true := by
  intro id hid
  unfold ModelsSlice.consistent at h
  rw [List.all_eq_true] at h
  have hid' := h id hid
  cases hlook : modelsSlice.modelGroups.lookup id with
  | none => simp [hlook] at hid'
  | some group =>
    simp only [hlook, List.all_eq_true] at hid'
    exact ⟨group, rfl, hid'⟩

/-- C11: on a consistent models slice `getIncludedModels` returns a set, and
whenever it returns a set, a model name is in it exactly when some group id of
`modelGroupList` has a visible group whose `modelList` contains the name and in
which the model's own `isVisible` flag is true. -/
theorem getIncludedModels_iff (modelsSlice : ModelsSlice) :
    (modelsSlice.consistent = true →
      ∃ includedModels, getIncludedModels modelsSlice = Except.ok includedModels) ∧
    ∀ includedModels, getIncludedModels modelsSlice = Except.ok includedModels →
      ∀ m, m ∈ includedModels ↔
        ∃ id ∈ modelsSlice.modelGroupList, ∃ group,
          modelsSlice.modelGroups.lookup id = some group ∧
          group.isVisible = true ∧ m ∈ group.modelList ∧
          assocGet group.models m = some true := by
  constructor
  · intro hcons
    exact getIncludedModelsLoop_ok modelsSlice.modelGroups
      modelsSlice.modelGroupList [] (consistent_iff modelsSlice hcons)
  · intro inc hinc m
    rw [getIncludedModelsLoop_mem _ _ _ _ hinc m]
    simp

/-- Witness for C11: the sample slice, where `modelA` is hidden in the visible
group and visible only in the invisible group. -/
theorem getIncludedModels_iff_witness :
    sampleSlice.consistent = true ∧
    (∃ includedModels, getIncludedModels sampleSlice = Except.ok includedModels) ∧
    getIncludedModels sampleSlice = Except.ok ["modelC", "modelB"] ∧
    ∀ m, m ∈ ["modelC", "modelB"] ↔
      ∃ id ∈ sampleSlice.modelGroupList, ∃ group,
        sampleSlice.modelGroups.lookup id = some group ∧
        group.isVisible = true ∧ m ∈ group.modelList ∧
        assocGet group.models m = some true :=
  ⟨by decide, (getIncludedModels_iff sampleSlice).1 (by decide), by decide,
    (getIncludedModels_iff sampleSlice).2 ["modelC", "modelB"] (by decide)⟩

/-! ## Claims on the colour table -/

/-- C12 (as stated, refuted): for the unknown colour name `ultraviolet`, and
for the name `constructor`, which is not in the table either, `colourNameToHex`
raises no error: it returns the falsy value `false` for the first and the
inherited member for the second. -/
theorem colourNameToHex_unknown_returns_false :
    assocGet colours (toLowerCase "ultraviolet") = none ∧
    colourNameToHex "ultraviolet" = JSValue.bool false ∧
    isFalsy (colourNameToHex "ultraviolet") = true ∧
    assocGet colours (toLowerCase "constructor") = none ∧
    colourNameToHex "constructor" = JSValue.builtin "constructor" := by
  refine ⟨by decide, by decide, by decide, by decide, by decide⟩

/-- The name `PIN` followed by U+212A KELVIN SIGN is lower-cased to `pink` and
found in the table. -/
theorem colourNameToHex_kelvin :
    colourNameToHex (String.mk ['P', 'I', 'N', Char.ofNat 8490]) =
      JSValue.str "#ffc0cb" := by
  decide

/-- C12 (amended): for every colour name made of ASCII characters whose
lower-case form is not a key of the table and not a member name inherited from
`Object.prototype`, `colourNameToHex` returns the boolean `false`, a falsy
value. -/
theorem colourNameToHex_unknown (colour : String)
    (_hascii : ∀ c ∈ colour.data, c.toNat < 128)
    (hkey : assocGet colours (toLowerCase colour) = none)
    (hproto : toLowerCase colour ∉ objectPrototypeKeys) :
    colourNameToHex colour = JSValue.bool false ∧
    isFalsy (colourNameToHex colour) = true := by
  have h : colourNameToHex colour = JSValue.bool false := by
    unfold colourNameToHex objGet
    simp only [hkey, if_neg hproto]
  rw [h]
  exact ⟨rfl, rfl⟩

/-- Witness for C12 (amended): the name `ultraviolet`. -/
theorem colourNameToHex_unknown_witness :
    (∀ c ∈ "ultraviolet".data, c.toNat < 128) ∧
    colourNameToHex "ultraviolet" = JSValue.bool false ∧
    isFalsy (colourNameToHex "ultraviolet") = true :=
  ⟨by decide, colourNameToHex_unknown "ultraviolet" (by decide) (by decide) (by decide)⟩

/-- C13 (the code at the failing inputs): the table has the key `"indianred "`
with a trailing space, so `indianred` is not found and the result is `false`;
`mediumpurple` maps to `#9370d8`, not `#9370db`; the spelling `grey` is not a
key. The names `red` and `Red` map to `#ff0000`. -/
theorem colourNameToHex_table_slips :
    colourNameToHex "indianred" = JSValue.bool false ∧
    colourNameToHex "indianred " = JSValue.str "#cd5c5c" ∧
    colourNameToHex "mediumpurple" = JSValue.str "#9370d8" ∧
    colourNameToHex "grey" = JSValue.bool false ∧
    colourNameToHex "red" = JSValue.str "#ff0000" ∧
    colourNameToHex "Red" = JSValue.str "#ff0000" := by
  refine ⟨by decide, by decide, by decide, by decide, by decide, by decide⟩

/-! ## Claim on the styling of the return series -/

/-- C14: for plotId `tco3_return`, a table whose region labels all belong to
`ALL` and none of whose models is named `__proto__`, and `n` included table
models, `styling.colors` has exactly `n` entries,
`colors[i]` being `colourNameToHex` of the colour of the model named by
`series[i + 1]`; the box-plot entry `series[0]` has no slot, and
`styling.dashArray` and `styling.width` are empty. -/
theorem generateSeries_return_styling (stats : Quantiles) (data : ModelTable)
    (modelsSlice : ModelsSlice) (includedModels : List String)
    (hinc : getIncludedModels modelsSlice = Except.ok includedModels)
    (hplain : data.plainNames)
    (hknown : ∀ p ∈ data.entries, hasKnownRegions p.2.data = true) :
    ∃ out, generateSeries stats "tco3_return" data modelsSlice = Except.ok out ∧
      out.styling.colors.length =
        (data.entries.filter (fun p => decide (p.1 ∈ includedModels))).length ∧
      out.series.length = out.styling.colors.length + 1 ∧
      (∀ (i : Nat) (item : SeriesItem), out.series[i + 1]? = some item →
        ∃ entry, assocGet data.entries item.name = some entry ∧
          out.styling.colors[i]? = some (colourNameToHex entry.plotStyle.color)) ∧
      out.styling.dashArray = [] ∧
      out.styling.width = [] := by
  have hknown' : ∀ p ∈ includedEntries includedModels data,
      hasKnownRegions p.2.data = true := by
    intro p hp
    exact hknown p (List.mem_filter.mp hp).1
  refine ⟨_,
    generateSeries_return_eq stats data modelsSlice includedModels hinc hplain hknown',
    ?_, ?_, ?_, rfl, rfl⟩
  · simp [includedEntries]
  · simp
  · intro i item hitem
    simp only [List.getElem?_cons_succ, List.getElem?_map, Option.map_eq_some'] at hitem
    obtain ⟨p, hp, rfl⟩ := hitem
    refine ⟨p.2, (mem_includedEntries _ _ p (List.getElem?_mem hp)).2, ?_⟩
    simp only [List.getElem?_map, hp, Option.map_some']

/-- Witness for C14: the sample return table, where `modelB` and `modelC` are
included. -/
theorem generateSeries_return_styling_witness :
    getIncludedModels sampleSlice = Except.ok ["modelC", "modelB"] ∧
    sampleReturnTable.plainNames ∧
    (∀ p ∈ sampleReturnTable.entries, hasKnownRegions p.2.data = true) ∧
    ∃ out,
      generateSeries sampleQuantiles "tco3_return" sampleReturnTable sampleSlice =
        Except.ok out ∧
      out.styling.colors.length =
        (sampleReturnTable.entries.filter
          (fun p => decide (p.1 ∈ ["modelC", "modelB"]))).length ∧
      out.series.length = out.styling.colors.length + 1 ∧
      (∀ (i : Nat) (item : SeriesItem), out.series[i + 1]? = some item →
        ∃ entry, assocGet sampleReturnTable.entries item.name = some entry ∧
          out.styling.colors[i]? = some (colourNameToHex entry.plotStyle.color)) ∧
      out.styling.dashArray = [] ∧
      out.styling.width = [] :=
  ⟨by decide, by decide, by decide,
    generateSeries_return_styling sampleQuantiles sampleReturnTable sampleSlice
      ["modelC", "modelB"] (by decide) (by decide) (by decide)⟩

/-! ## Claim on the chart options -/

/-- C15 (the code at the failing input): the first call of `getOptions` for
`tco3_return` with the styling colours `["#ff0000"]` returns the colours
`[undefined, "#ff0000"]`; the same call made again returns
`[undefined, "#ff0000", "#ff0000"]`, because the first call pushed to the array
`colors` of the shared default object. The two results differ. -/
theorem getOptions_return_colors_accumulate :
    (getOptions 1959 1967 initialDefaults sampleReturnCall).1 =
      some (ChartOptions.tco3_return [JSValue.undefined, JSValue.str "#ff0000"]
        "Return/Recovery") ∧
    (getOptions 1959 1967 (afterCalls 1959 1967 initialDefaults [sampleReturnCall])
        sampleReturnCall).1 =
      some (ChartOptions.tco3_return
        [JSValue.undefined, JSValue.str "#ff0000", JSValue.str "#ff0000"]
        "Return/Recovery") ∧
    (getOptions 1959 1967 (afterCalls 1959 1967 initialDefaults [sampleReturnCall])
        sampleReturnCall).1 ≠
      (getOptions 1959 1967 initialDefaults sampleReturnCall).1 := by
  refine ⟨by decide, by decide, by decide⟩

/-! ## Claim on the error modal -/

theorem alreadyReported_iff (l : List String) (msg : String) :
    alreadyReported l msg = true ↔ msg ∈ l := by
  induction l with
  | nil => simp [alreadyReported]
  | cons m rest ih =>
    unfold alreadyReported
    by_cases h : m = msg
    · simp [h]
    · rw [if_neg h, ih, List.mem_cons]
      constructor
      · exact Or.inr
      · rintro (hm | hm)
        · exact absurd hm.symm h
        · exact hm

/-- C16 (as stated, refuted): after `reportError("a")`, `closeErrorModal()` and
`reportError("a")` again, the error modal is not visible: the message is already
in `errorMessages` and the second report returns at once. -/
theorem reportError_repeated_stays_closed :
    (reportError (appRun [AppAction.reportError "a", AppAction.closeErrorModal])
      "a").isErrorModalVisible = false := by
  decide

/-- C16 (amended): in every state reached by `reportError` and `closeErrorModal`
calls, `reportError(msg)` with a message that is not yet in `errorMessages`
makes the error modal visible with `msg` as the displayed message; with a
message already in `errorMessages` it leaves the state unchanged. -/
theorem reportError_opens_modal (actions : List AppAction) (msg : String) :
    (msg ∉ (appRun actions).errorMessages →
      (reportError (appRun actions) msg).isErrorModalVisible = true ∧
      (reportError (appRun actions) msg).errorMessage = some msg) ∧
    (msg ∈ (appRun actions).errorMessages →
      reportError (appRun actions) msg = appRun actions) := by
  constructor
  · intro hnew
    have h : ¬ (alreadyReported (appRun actions).errorMessages msg = true) := by
      rw [alreadyReported_iff]
      exact hnew
    unfold reportError
    rw [if_neg h]
    exact ⟨rfl, rfl⟩
  · intro hold
    unfold reportError
    rw [if_pos ((alreadyReported_iff _ _).mpr hold)]

/-- Witness for C16 (amended): a new message after a report and a close. -/
theorem reportError_opens_modal_witness :
    "b" ∉ (appRun [AppAction.reportError "a", AppAction.closeErrorModal]).errorMessages ∧
    (reportError (appRun [AppAction.reportError "a", AppAction.closeErrorModal])
      "b").isErrorModalVisible = true ∧
    (reportError (appRun [AppAction.reportError "a", AppAction.closeErrorModal])
      "b").errorMessage = some "b" :=
  ⟨by decide,
    (reportError_opens_modal [AppAction.reportError "a", AppAction.closeErrorModal] "b").1
      (by decide)⟩

/-! ## Claim on the latitude band selector -/

/-- C17 (the code at the failing input): with the global band `{minLat: -90,
maxLat: 90}` among the latitude bands and the same selected location, the
callback returns the band's value but `findLatitudeBandByLocation` returns
`undefined`; it returns `undefined` for every list of bands and every selected
location, because the `return` belongs to the `forEach` callback. -/
theorem findLatitudeBandByLocation_undefined :
    latBandCallback { minLat := -90, maxLat := 90 }
        { description := "Global (90°S-90°N)", value := BandValue.location (-90) 90 } =
      some (BandValue.location (-90) 90) ∧
    findLatitudeBandByLocation sampleLatitudeBands { minLat := -90, maxLat := 90 } = none ∧
    ∀ (latitudeBands : List LatitudeBand) (selectedLocation : PlotLocation),
      findLatitudeBandByLocation latitudeBands selectedLocation = none := by
  refine ⟨by decide, by decide, ?_⟩
  intro latitudeBands selectedLocation
  rfl

end O3webapp
